import Mathlib

/-!
# ValveController: a Zigbee on/off endpoint with an automatic turn-off timer

A shallow embedding of `src/ValveController.cpp` and `src/ValveController.h`.

* The object's members become the fields of the structure `ValveController`.
* Every member function becomes a function on that structure which returns the
  updated object together with the externally visible calls it made
  (`Event`), in program order.
* The collaborators that live outside the repository (the FreeRTOS software
  timer service, the Zigbee attribute store, the SDK constants) are inputs:
  the constants are the fields of `Sdk`, the answers the collaborators give
  to one call are the fields of `Env`.
* `configASSERT` aborts the running operation: a function whose assertion is
  violated yields `Except.error`.
-/

/-- Constants that the source takes from the FreeRTOS and esp-zigbee headers.
Their declarations are not part of the repository, so the embedding is
parametric in them. -/
structure Sdk where
  portTICK_PERIOD_MS : Nat
  ESP_ZB_ZCL_CLUSTER_ID_ON_OFF : Nat
  ESP_ZB_ZCL_CLUSTER_SERVER_ROLE : Nat
  ESP_ZB_ZCL_ATTR_ON_OFF_ON_OFF_ID : Nat
  ESP_ZB_ZCL_ATTR_ON_OFF_ON_TIME : Nat
  ESP_ZB_ZCL_ATTR_TYPE_BOOL : Nat
  ESP_ZB_ZCL_ATTR_TYPE_U16 : Nat
  ESP_ZB_ZCL_STATUS_SUCCESS : Nat
  deriving DecidableEq, Repr

/-- The values of the constants on an ESP32 build (1 ms tick, ZCL identifiers
of the On/Off cluster). Used for concrete evaluations only. -/
def esp32 : Sdk :=
  { portTICK_PERIOD_MS := 1
    ESP_ZB_ZCL_CLUSTER_ID_ON_OFF := 6
    ESP_ZB_ZCL_CLUSTER_SERVER_ROLE := 1
    ESP_ZB_ZCL_ATTR_ON_OFF_ON_OFF_ID := 0
    ESP_ZB_ZCL_ATTR_ON_OFF_ON_TIME := 16385
    ESP_ZB_ZCL_ATTR_TYPE_BOOL := 16
    ESP_ZB_ZCL_ATTR_TYPE_U16 := 33
    ESP_ZB_ZCL_STATUS_SUCCESS := 0 }

/-- `#define DEFAULT_ON_TIME_VALUE 3600` (ValveController.cpp line 4). -/
def DEFAULT_ON_TIME_VALUE : Nat := 3600

/-- What the collaborators answer during one operation of the controller:
the tick count at which the operation runs, whether `xTimerCreate` returns a
handle, whether `xTimerChangePeriod` returns `pdPASS`, and the status that
`esp_zb_zcl_set_attribute_val` returns. -/
structure Env where
  now : Nat
  xTimerCreate_ok : Bool
  xTimerChangePeriod_ok : Bool
  zcl_status : Nat
  deriving DecidableEq, Repr

/-- A FreeRTOS one-shot software timer: its period in ticks and, while it is
active, the tick at which it expires (`none` when dormant). -/
structure Timer where
  period : Nat
  expiry : Option Nat
  deriving DecidableEq, Repr

/-- FreeRTOS `xTimerCreate`: a new timer is dormant; `none` is the NULL handle
returned when the timer cannot be allocated. -/
def xTimerCreate (period : Nat) (env : Env) : Option Timer :=
  if env.xTimerCreate_ok then some { period := period, expiry := none } else none

/-- FreeRTOS `xTimerChangePeriod`: on `pdPASS` the timer gets the new period and
is (re)started, expiring `period` ticks after the call; on failure the timer is
left as it was. -/
def xTimerChangePeriod (t : Timer) (period : Nat) (env : Env) : Bool × Timer :=
  if env.xTimerChangePeriod_ok then
    (true, { period := period, expiry := some (env.now + period) })
  else
    (false, t)

/-- FreeRTOS `xTimerStop`: the timer becomes dormant. The source ignores the
returned status; the timer collaborator's `cancel` has no failure result. -/
def xTimerStop (t : Timer) : Timer :=
  { t with expiry := none }

/-- Externally visible calls made by the controller. -/
inductive Event where
  /-- A call through the `_on_valve_changed` function pointer `cb`. -/
  | on_valve_changed (cb : Nat) (state : Bool)
  | esp_zb_lock_acquire
  /-- The call `esp_zb_zcl_set_attribute_val(endpoint, cluster, role, attr, &value, check)`. -/
  | esp_zb_zcl_set_attribute_val (endpoint cluster_id cluster_role attr_id : Nat)
      (value : Bool) (check : Bool)
  | esp_zb_lock_release
  | log_v
  | log_w
  | log_e
  deriving DecidableEq, Repr

/-- Modelled from the spec: the macro `configASSERT` is not defined in the
repository; a violated assertion is fatal to the operation, which then does
not return. The constructors tell which assertion of `StartTurnOffTimer` was
violated. -/
inductive Fault where
  /-- The assertion `configASSERT(_turn_off_timer)` (line 63). -/
  | timer_not_created
  /-- The assertion `configASSERT(xResult == pdPASS)` (line 68). -/
  | period_change_rejected
  deriving DecidableEq, Repr

/-- The message handed to `zbAttributeSet`: `info.cluster`, `attribute.id`,
`attribute.data.type` and the bytes `attribute.data.value` points to, read as a
little-endian number. -/
structure esp_zb_zcl_set_attr_value_message_t where
  info_cluster : Nat
  attribute_id : Nat
  attribute_data_type : Nat
  attribute_data_value : Nat
  deriving DecidableEq, Repr

/-- The read `*(bool *)message->attribute.data.value`. -/
def esp_zb_zcl_set_attr_value_message_t.as_bool
    (m : esp_zb_zcl_set_attr_value_message_t) : Bool :=
  m.attribute_data_value % 256 != 0

/-- The read `*(uint16_t *)message->attribute.data.value`. -/
def esp_zb_zcl_set_attr_value_message_t.as_u16
    (m : esp_zb_zcl_set_attr_value_message_t) : Nat :=
  m.attribute_data_value % 65536

/-- The members of `class ValveController` (ValveController.h lines 49-54) and
the `_endpoint` member of its base class. `_on_valve_changed` is the address of
the registered callback, `none` for a null pointer; `_turn_off_timer` is `none`
for a NULL handle. -/
structure ValveController where
  _endpoint : Nat
  _on_valve_changed : Option Nat
  _current_state : Bool
  _on_time_value : Nat
  _turn_off_timer : Option Timer
  deriving DecidableEq, Repr

/-- What a member function leaves behind when it returns: its return value,
the object, and the calls it made, in order. -/
structure Outcome (α : Type) where
  ret : α
  self : ValveController
  events : List Event
  deriving DecidableEq, Repr

/-- The constructor `ValveController::ValveController` (ValveController.cpp
lines 6-40), named `construct` here because the structure itself carries the
class name. Its initialiser list sets
`_on_time_value` and `_turn_off_timer` only; `_current_state` and
`_on_valve_changed` are not initialised, so the values they hold afterwards are
arguments here. The endpoint registration calls are not modelled. -/
def ValveController.construct (endpoint : Nat) (current_state0 : Bool)
    (on_valve_changed0 : Option Nat) : ValveController :=
  { _endpoint := endpoint % 256
    _on_valve_changed := on_valve_changed0
    _current_state := current_state0
    _on_time_value := DEFAULT_ON_TIME_VALUE
    _turn_off_timer := none }

/-- `onValveChanged(callback)` (ValveController.h lines 21-23). -/
def ValveController.onValveChanged (c : ValveController) (callback : Option Nat) :
    ValveController :=
  { c with _on_valve_changed := callback }

/-- `getValveState()` (ValveController.h lines 34-36). -/
def ValveController.getValveState (c : ValveController) : Bool :=
  c._current_state

/-- `getOnTime()` (ValveController.h lines 38-40). -/
def ValveController.getOnTime (c : ValveController) : Nat :=
  c._on_time_value

/-- `getEndpoint()` of the base class. -/
def ValveController.getEndpoint (c : ValveController) : Nat :=
  c._endpoint

/-- `StartTurnOffTimer(period)` (ValveController.cpp lines 48-70). -/
def ValveController.StartTurnOffTimer (c : ValveController) (period : Nat) (env : Env) :
    Except Fault ValveController :=
  if period = 0 then
    match c._turn_off_timer with
    | some t => .ok { c with _turn_off_timer := some (xTimerStop t) }
    | none => .ok c
  else
    let handle : Option Timer :=
      match c._turn_off_timer with
      | none => xTimerCreate period env
      | some t => some t
    match handle with
    | none => .error Fault.timer_not_created
    | some t =>
      let r := xTimerChangePeriod t period env
      if r.1 then .ok { c with _turn_off_timer := some r.2 }
      else .error Fault.period_change_rejected

/-- The argument `(_on_time_value * 100) / portTICK_PERIOD_MS` of line 102,
converted to the 32-bit `TickType_t` parameter. The product is an `int`
computation on a promoted `uint16_t`. -/
def ValveController.turnOffPeriod (k : Sdk) (c : ValveController) : Nat :=
  ((c._on_time_value * 100) / k.portTICK_PERIOD_MS) % 2 ^ 32

/-- `ValveChanged()` (ValveController.cpp lines 97-112). -/
def ValveController.ValveChanged (k : Sdk) (c : ValveController) (env : Env) :
    Except Fault (Outcome Unit) :=
  let timed : Except Fault ValveController :=
    if c._current_state then
      if c._on_time_value ≠ 0 then c.StartTurnOffTimer (c.turnOffPeriod k) env
      else .ok c
    else
      c.StartTurnOffTimer 0 env
  match timed with
  | .error f => .error f
  | .ok c1 =>
    match c1._on_valve_changed with
    | some cb =>
      .ok { ret := (), self := c1, events := [Event.on_valve_changed cb c1._current_state] }
    | none =>
      .ok { ret := (), self := c1, events := [Event.log_w] }

/-- `restoreValve()` (ValveController.h lines 26-28). -/
def ValveController.restoreValve (k : Sdk) (c : ValveController) (env : Env) :
    Except Fault (Outcome Unit) :=
  c.ValveChanged k env

/-- `setValve(state)` (ValveController.cpp lines 114-140). -/
def ValveController.setValve (k : Sdk) (c : ValveController) (state : Bool) (env : Env) :
    Except Fault (Outcome Bool) :=
  let changed : Except Fault (Outcome Unit) :=
    if state ≠ c._current_state then
      ValveController.ValveChanged k { c with _current_state := state } env
    else
      .ok { ret := (), self := c, events := [] }
  match changed with
  | .error f => .error f
  | .ok o =>
    let write : List Event :=
      [ Event.log_v,
        Event.esp_zb_lock_acquire,
        Event.esp_zb_zcl_set_attribute_val o.self.getEndpoint
          k.ESP_ZB_ZCL_CLUSTER_ID_ON_OFF k.ESP_ZB_ZCL_CLUSTER_SERVER_ROLE
          k.ESP_ZB_ZCL_ATTR_ON_OFF_ON_OFF_ID o.self._current_state false,
        Event.esp_zb_lock_release ]
    if env.zcl_status ≠ k.ESP_ZB_ZCL_STATUS_SUCCESS then
      .ok { ret := false, self := o.self, events := o.events ++ write ++ [Event.log_e] }
    else
      .ok { ret := true, self := o.self, events := o.events ++ write }

/-- `TurnOffCallback(timer)` (ValveController.cpp lines 42-46); the object is
the one recovered from the timer id. The result of `setValve` is dropped. -/
def ValveController.TurnOffCallback (k : Sdk) (c : ValveController) (env : Env) :
    Except Fault (Outcome Unit) :=
  match c.setValve k false env with
  | .error f => .error f
  | .ok o => .ok { ret := (), self := o.self, events := o.events }

/-- `zbAttributeSet(message)` (ValveController.cpp lines 73-93). -/
def ValveController.zbAttributeSet (k : Sdk) (c : ValveController)
    (message : esp_zb_zcl_set_attr_value_message_t) (env : Env) :
    Except Fault (Outcome Unit) :=
  let r : ValveController × Bool × List Event :=
    if message.info_cluster = k.ESP_ZB_ZCL_CLUSTER_ID_ON_OFF then
      if message.attribute_id = k.ESP_ZB_ZCL_ATTR_ON_OFF_ON_OFF_ID
          ∧ message.attribute_data_type = k.ESP_ZB_ZCL_ATTR_TYPE_BOOL then
        ({ c with _current_state := message.as_bool }, true, [])
      else if message.attribute_id = k.ESP_ZB_ZCL_ATTR_ON_OFF_ON_TIME
          ∧ message.attribute_data_type = k.ESP_ZB_ZCL_ATTR_TYPE_U16 then
        ({ c with _on_time_value := message.as_u16 }, true, [])
      else
        (c, false, [Event.log_w])
    else
      (c, false, [Event.log_w])
  if r.2.1 then
    match ValveController.ValveChanged k r.1 env with
    | .error f => .error f
    | .ok o => .ok { ret := (), self := o.self, events := r.2.2 ++ o.events }
  else
    .ok { ret := (), self := r.1, events := r.2.2 }

/-- The timer service's side of an expiry: an active one-shot timer whose
expiry tick has been reached becomes dormant and its callback
(`TurnOffCallback`) runs; if no timer is due nothing happens. -/
def ValveController.timerExpires (k : Sdk) (c : ValveController) (env : Env) :
    Except Fault (Outcome Unit) :=
  match c._turn_off_timer with
  | some t =>
    match t.expiry with
    | some e =>
      if e ≤ env.now then
        ValveController.TurnOffCallback k { c with _turn_off_timer := some (xTimerStop t) } env
      else
        .ok { ret := (), self := c, events := [] }
    | none => .ok { ret := (), self := c, events := [] }
  | none => .ok { ret := (), self := c, events := [] }

/-- A timer is pending: the handle exists and the timer is active. -/
def ValveController.timerPending (c : ValveController) : Bool :=
  match c._turn_off_timer with
  | some t => t.expiry.isSome
  | none => false

/-- The tick at which the pending timer will fire, if one is pending. -/
def ValveController.deadline (c : ValveController) : Option Nat :=
  match c._turn_off_timer with
  | some t => t.expiry
  | none => none

/-- The calls made through the observer pointer, in order: callback and argument. -/
def observerCalls (es : List Event) : List (Nat × Bool) :=
  es.filterMap fun e =>
    match e with
    | Event.on_valve_changed cb s => some (cb, s)
    | _ => none

/-- One attribute write handed to the network layer. -/
structure AttrWrite where
  endpoint : Nat
  cluster_id : Nat
  cluster_role : Nat
  attr_id : Nat
  value : Bool
  check : Bool
  deriving DecidableEq, Repr

/-- The attribute writes issued to the network layer, in order. -/
def netWrites (es : List Event) : List AttrWrite :=
  es.filterMap fun e =>
    match e with
    | Event.esp_zb_zcl_set_attribute_val ep cl role attr v chk =>
      some { endpoint := ep, cluster_id := cl, cluster_role := role, attr_id := attr,
             value := v, check := chk }
    | _ => none

/-- The timer service grants every request made during this operation. -/
def Env.timerServiceOk (env : Env) : Prop :=
  env.xTimerCreate_ok = true ∧ env.xTimerChangePeriod_ok = true

instance (env : Env) : Decidable env.timerServiceOk := by
  unfold Env.timerServiceOk
  exact inferInstance

/-- The entry points through which the object is driven after construction. -/
inductive ValveAction where
  | setValve (state : Bool) (env : Env)
  | restoreValve (env : Env)
  | onValveChanged (callback : Option Nat)
  | zbAttributeSet (message : esp_zb_zcl_set_attr_value_message_t) (env : Env)
  | timerExpires (env : Env)
  deriving DecidableEq, Repr

/-- The object after one action, or the violated assertion. -/
def ValveController.step (k : Sdk) (c : ValveController) : ValveAction → Except Fault ValveController
  | ValveAction.setValve s env => (c.setValve k s env).map fun o => o.self
  | ValveAction.restoreValve env => (c.restoreValve k env).map fun o => o.self
  | ValveAction.onValveChanged cb => .ok (c.onValveChanged cb)
  | ValveAction.zbAttributeSet m env => (c.zbAttributeSet k m env).map fun o => o.self
  | ValveAction.timerExpires env => (c.timerExpires k env).map fun o => o.self

/-- The object after a sequence of actions, or the first violated assertion. -/
def ValveController.run (k : Sdk) (c : ValveController) : List ValveAction → Except Fault ValveController
  | [] => .ok c
  | a :: rest =>
    match c.step k a with
    | .error f => .error f
    | .ok c1 => ValveController.run k c1 rest

/-- States reachable from construction: any endpoint number, any values of the
members the constructor leaves uninitialised, any sequence of actions that
completes. -/
def ValveController.Reachable (k : Sdk) (c : ValveController) : Prop :=
  ∃ (endpoint : Nat) (s0 : Bool) (cb0 : Option Nat) (actions : List ValveAction),
    ValveController.run k (ValveController.construct endpoint s0 cb0) actions = .ok c

/-- The object after a sequence of `setValve` calls, each with its own
collaborator answers, or the first violated assertion. -/
def ValveController.setValveCalls (k : Sdk) (c : ValveController) :
    List (Bool × Env) → Except Fault ValveController
  | [] => .ok c
  | call :: rest =>
    match c.setValve k call.1 call.2 with
    | .error f => .error f
    | .ok o => ValveController.setValveCalls k o.self rest

/-- The tail of `ValveChanged` (lines 107-111): the observer call, or the
warning when no observer is registered. -/
def ValveController.notifyEvents (c : ValveController) : List Event :=
  match c._on_valve_changed with
  | some cb => [Event.on_valve_changed cb c._current_state]
  | none => [Event.log_w]

/-- The calls of lines 121-137 of `setValve`, made on the object `c` as it is
after the state update: the verbose log, the locked attribute write, and the
error log when the write is rejected. -/
def ValveController.writeEvents (k : Sdk) (c : ValveController) (env : Env) : List Event :=
  [ Event.log_v,
    Event.esp_zb_lock_acquire,
    Event.esp_zb_zcl_set_attribute_val c._endpoint
      k.ESP_ZB_ZCL_CLUSTER_ID_ON_OFF k.ESP_ZB_ZCL_CLUSTER_SERVER_ROLE
      k.ESP_ZB_ZCL_ATTR_ON_OFF_ON_OFF_ID c._current_state false,
    Event.esp_zb_lock_release ]
  ++ (if env.zcl_status ≠ k.ESP_ZB_ZCL_STATUS_SUCCESS then [Event.log_e] else [])

/-- Collaborator answers at tick `now` with a timer service that grants every
request and a network layer that answers `status`. -/
def Env.granting (now status : Nat) : Env :=
  { now := now, xTimerCreate_ok := true, xTimerChangePeriod_ok := true, zcl_status := status }

/-- The inbound message for a write of the on/off attribute (boolean type) of
the on/off cluster with value `v`. -/
def Sdk.onOffMessage (k : Sdk) (v : Bool) : esp_zb_zcl_set_attr_value_message_t :=
  { info_cluster := k.ESP_ZB_ZCL_CLUSTER_ID_ON_OFF
    attribute_id := k.ESP_ZB_ZCL_ATTR_ON_OFF_ON_OFF_ID
    attribute_data_type := k.ESP_ZB_ZCL_ATTR_TYPE_BOOL
    attribute_data_value := if v then 1 else 0 }

/-- The inbound message for a write of the on-time attribute (16-bit unsigned
type) of the on/off cluster with value `n`. -/
def Sdk.onTimeMessage (k : Sdk) (n : Nat) : esp_zb_zcl_set_attr_value_message_t :=
  { info_cluster := k.ESP_ZB_ZCL_CLUSTER_ID_ON_OFF
    attribute_id := k.ESP_ZB_ZCL_ATTR_ON_OFF_ON_TIME
    attribute_data_type := k.ESP_ZB_ZCL_ATTR_TYPE_U16
    attribute_data_value := n }

/-- The on/off attribute and the on-time attribute have different identifiers
(0x0000 and 0x4001 in the ZCL). -/
def Sdk.attrsDistinct (k : Sdk) : Prop :=
  k.ESP_ZB_ZCL_ATTR_ON_OFF_ON_OFF_ID ≠ k.ESP_ZB_ZCL_ATTR_ON_OFF_ON_TIME

/-- A message that `zbAttributeSet` does not support: its cluster is not the
on/off cluster, or its attribute id and value type are neither the on/off
attribute with boolean type nor the on-time attribute with 16-bit unsigned type. -/
def Sdk.unsupported (k : Sdk) (m : esp_zb_zcl_set_attr_value_message_t) : Prop :=
  m.info_cluster ≠ k.ESP_ZB_ZCL_CLUSTER_ID_ON_OFF
  ∨ (¬ (m.attribute_id = k.ESP_ZB_ZCL_ATTR_ON_OFF_ON_OFF_ID
          ∧ m.attribute_data_type = k.ESP_ZB_ZCL_ATTR_TYPE_BOOL)
      ∧ ¬ (m.attribute_id = k.ESP_ZB_ZCL_ATTR_ON_OFF_ON_TIME
          ∧ m.attribute_data_type = k.ESP_ZB_ZCL_ATTR_TYPE_U16))

/-- Every timer that is active was armed with a non-zero period. -/
def ValveController.armedPeriodNonzero (c : ValveController) : Prop :=
  ∀ t, c._turn_off_timer = some t → t.expiry.isSome = true → t.period ≠ 0

/-- The timer invariant of the controller: a timer is pending only while the
valve is on, and an active timer was armed with a non-zero period. -/
def ValveController.timerInv (c : ValveController) : Prop :=
  (c.timerPending = true → c._current_state = true) ∧ c.armedPeriodNonzero

/-- The valve as it is after `setValve(true)` at tick 0 on the freshly
constructed object, with the default on-time and a 1 ms tick: on, timer armed
for 360000 ticks, due at tick 360000. -/
def valveOnTimed : ValveController :=
  { _endpoint := 10, _on_valve_changed := some 7, _current_state := true,
    _on_time_value := 3600,
    _turn_off_timer := some { period := 360000, expiry := some 360000 } }

/-- The timer as the reaction arms it at `env.now` from the on-time value of `c`. -/
def ValveController.armedTimer (k : Sdk) (c : ValveController) (env : Env) : Timer :=
  { period := c.turnOffPeriod k, expiry := some (env.now + c.turnOffPeriod k) }

/-- An action that is neither an off command nor an inbound write: an
on-command, `restoreValve`, an observer registration, or the timer service
looking for a due timer. -/
def ValveAction.quiet : ValveAction → Bool
  | ValveAction.setValve s _ => s
  | ValveAction.restoreValve _ => true
  | ValveAction.onValveChanged _ => true
  | ValveAction.zbAttributeSet _ _ => false
  | ValveAction.timerExpires _ => true

/-- The message is a write of the on/off attribute that `zbAttributeSet`
accepts (first branch, lines 78-80). -/
def Sdk.isOnOffWrite (k : Sdk) (m : esp_zb_zcl_set_attr_value_message_t) : Prop :=
  m.info_cluster = k.ESP_ZB_ZCL_CLUSTER_ID_ON_OFF
  ∧ m.attribute_id = k.ESP_ZB_ZCL_ATTR_ON_OFF_ON_OFF_ID
  ∧ m.attribute_data_type = k.ESP_ZB_ZCL_ATTR_TYPE_BOOL

/-- The message is a write of the on-time attribute that `zbAttributeSet`
accepts (second branch, lines 81-83): it is not taken by the first branch. -/
def Sdk.isOnTimeWrite (k : Sdk) (m : esp_zb_zcl_set_attr_value_message_t) : Prop :=
  m.info_cluster = k.ESP_ZB_ZCL_CLUSTER_ID_ON_OFF
  ∧ ¬ (m.attribute_id = k.ESP_ZB_ZCL_ATTR_ON_OFF_ON_OFF_ID
        ∧ m.attribute_data_type = k.ESP_ZB_ZCL_ATTR_TYPE_BOOL)
  ∧ m.attribute_id = k.ESP_ZB_ZCL_ATTR_ON_OFF_ON_TIME
  ∧ m.attribute_data_type = k.ESP_ZB_ZCL_ATTR_TYPE_U16

/-! ## Shared lemmas about the timer handling -/

theorem StartTurnOffTimer_zero (c : ValveController) (env : Env) :
    c.StartTurnOffTimer 0 env
      = .ok { c with _turn_off_timer := c._turn_off_timer.map xTimerStop } := by
  unfold ValveController.StartTurnOffTimer
  cases h : c._turn_off_timer <;> simp
  cases c; simp_all

theorem StartTurnOffTimer_pos_ok (c : ValveController) (p : Nat) (env : Env)
    (hp : p ≠ 0) (hT : env.timerServiceOk) :
    c.StartTurnOffTimer p env
      = .ok { c with _turn_off_timer := some { period := p, expiry := some (env.now + p) } } := by
  obtain ⟨h1, h2⟩ := hT
  unfold ValveController.StartTurnOffTimer
  cases h : c._turn_off_timer <;> simp [hp, xTimerCreate, xTimerChangePeriod, h1, h2]

theorem StartTurnOffTimer_pos_inv (c c1 : ValveController) (p : Nat) (env : Env)
    (hp : p ≠ 0) (h : c.StartTurnOffTimer p env = .ok c1) :
    c1 = { c with _turn_off_timer := some { period := p, expiry := some (env.now + p) } } := by
  unfold ValveController.StartTurnOffTimer at h
  cases ht : c._turn_off_timer <;> cases hc : env.xTimerCreate_ok <;>
    cases hq : env.xTimerChangePeriod_ok <;>
    simp_all [xTimerCreate, xTimerChangePeriod]

theorem ValveChanged_off (k : Sdk) (c : ValveController) (env : Env)
    (hoff : c._current_state = false) :
    c.ValveChanged k env
      = .ok { ret := (), self := { c with _turn_off_timer := c._turn_off_timer.map xTimerStop },
              events := c.notifyEvents } := by
  unfold ValveController.ValveChanged
  simp only [hoff, StartTurnOffTimer_zero, ValveController.notifyEvents]
  cases c._on_valve_changed <;> simp [hoff]

theorem ValveChanged_on_untimed (k : Sdk) (c : ValveController) (env : Env)
    (hon : c._current_state = true) (hz : c._on_time_value = 0) :
    c.ValveChanged k env = .ok { ret := (), self := c, events := c.notifyEvents } := by
  unfold ValveController.ValveChanged
  simp only [hon, hz, ValveController.notifyEvents]
  cases h : c._on_valve_changed <;> simp [hon, h]

theorem ValveChanged_on_timed (k : Sdk) (c : ValveController) (env : Env)
    (hon : c._current_state = true) (hnz : c._on_time_value ≠ 0) :
    c.ValveChanged k env
      = match c.StartTurnOffTimer (c.turnOffPeriod k) env with
        | .error f => .error f
        | .ok c1 => .ok { ret := (), self := c1, events := c1.notifyEvents } := by
  unfold ValveController.ValveChanged
  simp only [hon, ValveController.notifyEvents]
  cases c.StartTurnOffTimer (c.turnOffPeriod k) env with
  | error f => simp [hnz]
  | ok c1 => cases h : c1._on_valve_changed <;> simp [h, hnz]

theorem StartTurnOffTimer_frame (c c1 : ValveController) (p : Nat) (env : Env)
    (h : c.StartTurnOffTimer p env = .ok c1) :
    c1._endpoint = c._endpoint ∧ c1._on_valve_changed = c._on_valve_changed
      ∧ c1._current_state = c._current_state ∧ c1._on_time_value = c._on_time_value := by
  by_cases hp : p = 0
  · subst hp
    rw [StartTurnOffTimer_zero] at h
    cases h
    simp
  · have := StartTurnOffTimer_pos_inv c c1 p env hp h
    subst this
    simp

theorem StartTurnOffTimer_ok (c : ValveController) (p : Nat) (env : Env)
    (hT : env.timerServiceOk) : ∃ c1, c.StartTurnOffTimer p env = .ok c1 := by
  by_cases hp : p = 0
  · subst hp
    exact ⟨_, StartTurnOffTimer_zero c env⟩
  · exact ⟨_, StartTurnOffTimer_pos_ok c p env hp hT⟩

theorem ValveChanged_frame (k : Sdk) (c : ValveController) (env : Env) (o : Outcome Unit)
    (h : c.ValveChanged k env = .ok o) :
    o.self._endpoint = c._endpoint ∧ o.self._on_valve_changed = c._on_valve_changed
      ∧ o.self._current_state = c._current_state ∧ o.self._on_time_value = c._on_time_value
      ∧ o.events = c.notifyEvents := by
  cases hs : c._current_state with
  | false =>
    rw [ValveChanged_off k c env hs] at h
    cases h
    simp [ValveController.notifyEvents, hs]
  | true =>
    by_cases hz : c._on_time_value = 0
    · rw [ValveChanged_on_untimed k c env hs hz] at h
      cases h
      simp [hs]
    · rw [ValveChanged_on_timed k c env hs hz] at h
      cases h1 : c.StartTurnOffTimer (c.turnOffPeriod k) env with
      | error f => simp [h1] at h
      | ok c1 =>
        simp only [h1] at h
        cases h
        obtain ⟨a, b, d, e⟩ := StartTurnOffTimer_frame c c1 _ env h1
        simp [ValveController.notifyEvents, a, b, d, e, hs]

theorem ValveChanged_ok (k : Sdk) (c : ValveController) (env : Env)
    (hT : env.timerServiceOk) : ∃ o, c.ValveChanged k env = .ok o := by
  cases hs : c._current_state with
  | false => exact ⟨_, ValveChanged_off k c env hs⟩
  | true =>
    by_cases hz : c._on_time_value = 0
    · exact ⟨_, ValveChanged_on_untimed k c env hs hz⟩
    · obtain ⟨c1, h1⟩ := StartTurnOffTimer_ok c (c.turnOffPeriod k) env hT
      exact ⟨_, by rw [ValveChanged_on_timed k c env hs hz, h1]⟩

/-! ## Shared lemmas about `setValve` -/

theorem observerCalls_writeEvents (k : Sdk) (c : ValveController) (env : Env) :
    observerCalls (c.writeEvents k env) = [] := by
  unfold ValveController.writeEvents observerCalls
  split <;> simp

theorem netWrites_writeEvents (k : Sdk) (c : ValveController) (env : Env) :
    netWrites (c.writeEvents k env)
      = [{ endpoint := c._endpoint, cluster_id := k.ESP_ZB_ZCL_CLUSTER_ID_ON_OFF,
           cluster_role := k.ESP_ZB_ZCL_CLUSTER_SERVER_ROLE,
           attr_id := k.ESP_ZB_ZCL_ATTR_ON_OFF_ON_OFF_ID,
           value := c._current_state, check := false }] := by
  unfold ValveController.writeEvents netWrites
  split <;> simp

theorem observerCalls_notifyEvents (c : ValveController) :
    observerCalls c.notifyEvents
      = match c._on_valve_changed with
        | some cb => [(cb, c._current_state)]
        | none => [] := by
  unfold ValveController.notifyEvents observerCalls
  cases c._on_valve_changed <;> simp

theorem netWrites_notifyEvents (c : ValveController) : netWrites c.notifyEvents = [] := by
  unfold ValveController.notifyEvents netWrites
  cases c._on_valve_changed <;> simp

theorem observerCalls_append (a b : List Event) :
    observerCalls (a ++ b) = observerCalls a ++ observerCalls b := by
  simp [observerCalls]

theorem netWrites_append (a b : List Event) :
    netWrites (a ++ b) = netWrites a ++ netWrites b := by
  simp [netWrites]

theorem setValve_same (k : Sdk) (c : ValveController) (s : Bool) (env : Env)
    (hs : s = c._current_state) :
    c.setValve k s env
      = .ok { ret := decide (env.zcl_status = k.ESP_ZB_ZCL_STATUS_SUCCESS), self := c,
              events := c.writeEvents k env } := by
  unfold ValveController.setValve ValveController.writeEvents
  by_cases hz : env.zcl_status = k.ESP_ZB_ZCL_STATUS_SUCCESS <;>
    simp [hs, hz, ValveController.getEndpoint]

theorem setValve_changed (k : Sdk) (c : ValveController) (s : Bool) (env : Env)
    (hs : s ≠ c._current_state) :
    c.setValve k s env
      = match ValveController.ValveChanged k { c with _current_state := s } env with
        | .error f => .error f
        | .ok o =>
          .ok { ret := decide (env.zcl_status = k.ESP_ZB_ZCL_STATUS_SUCCESS), self := o.self,
                events := o.events ++ o.self.writeEvents k env } := by
  unfold ValveController.setValve ValveController.writeEvents
  have hs1 : ¬ s = c._current_state := hs
  cases ValveController.ValveChanged k { c with _current_state := s } env with
  | error f => simp [hs1]
  | ok o =>
    by_cases hz : env.zcl_status = k.ESP_ZB_ZCL_STATUS_SUCCESS <;>
      simp [hs1, hz, ValveController.getEndpoint]

theorem setValve_ok (k : Sdk) (c : ValveController) (s : Bool) (env : Env)
    (hT : env.timerServiceOk) : ∃ o, c.setValve k s env = .ok o := by
  by_cases hs : s = c._current_state
  · exact ⟨_, setValve_same k c s env hs⟩
  · obtain ⟨o, ho⟩ := ValveChanged_ok k { c with _current_state := s } env hT
    exact ⟨_, by rw [setValve_changed k c s env hs, ho]⟩

/-- What a completed `setValve(s)` leaves: the state is `s`, the other plain
members are untouched, the observer is called once exactly when `s` differs
from the previous state, one attribute write carries `s`, and the result tells
whether the write was accepted. -/
theorem setValve_spec (k : Sdk) (c : ValveController) (s : Bool) (env : Env) (o : Outcome Bool)
    (h : c.setValve k s env = .ok o) :
    o.self._current_state = s
      ∧ o.self._endpoint = c._endpoint
      ∧ o.self._on_valve_changed = c._on_valve_changed
      ∧ o.self._on_time_value = c._on_time_value
      ∧ o.ret = decide (env.zcl_status = k.ESP_ZB_ZCL_STATUS_SUCCESS)
      ∧ observerCalls o.events
          = (if s ≠ c._current_state then
              match c._on_valve_changed with
              | some cb => [(cb, s)]
              | none => []
            else [])
      ∧ netWrites o.events
          = [{ endpoint := c._endpoint, cluster_id := k.ESP_ZB_ZCL_CLUSTER_ID_ON_OFF,
               cluster_role := k.ESP_ZB_ZCL_CLUSTER_SERVER_ROLE,
               attr_id := k.ESP_ZB_ZCL_ATTR_ON_OFF_ON_OFF_ID,
               value := s, check := false }] := by
  by_cases hs : s = c._current_state
  · rw [setValve_same k c s env hs] at h
    cases h
    simp [hs, observerCalls_writeEvents, netWrites_writeEvents]
  · rw [setValve_changed k c s env hs] at h
    cases h1 : ValveController.ValveChanged k { c with _current_state := s } env with
    | error f => simp [h1] at h
    | ok o1 =>
      simp only [h1] at h
      cases h
      obtain ⟨a, b, d, e, g⟩ := ValveChanged_frame k _ env o1 h1
      simp only [] at a b d e
      simp only [a, b, d, e, g, hs, observerCalls_append, netWrites_append,
        observerCalls_writeEvents, netWrites_writeEvents, observerCalls_notifyEvents,
        netWrites_notifyEvents]
      simp [hs]

/-! ## Claims about `setValve` -/

theorem setValveCalls_ok (k : Sdk) (calls : List (Bool × Env)) :
    ∀ (c : ValveController), (∀ call ∈ calls, call.2.timerServiceOk) →
      ∃ c1, c.setValveCalls k calls = .ok c1 := by
  induction calls with
  | nil => intro c _; exact ⟨c, rfl⟩
  | cons call rest ih =>
    intro c h
    obtain ⟨o, ho⟩ := setValve_ok k c call.1 call.2 (h call (List.mem_cons_self _ _))
    obtain ⟨c1, hc1⟩ := ih o.self (fun x hx => h x (List.mem_cons_of_mem _ hx))
    exact ⟨c1, by simp [ValveController.setValveCalls, ho, hc1]⟩

theorem setValveCalls_inv (k : Sdk) (calls : List (Bool × Env)) :
    ∀ (c c1 : ValveController), c.setValveCalls k calls = .ok c1 →
      c1._on_valve_changed = c._on_valve_changed
        ∧ c1._current_state = ((calls.getLast?).map fun call => call.1).getD c._current_state := by
  induction calls with
  | nil =>
    intro c c1 h
    simp [ValveController.setValveCalls] at h
    subst h
    simp
  | cons call rest ih =>
    intro c c1 h
    unfold ValveController.setValveCalls at h
    cases ho : c.setValve k call.1 call.2 with
    | error f => simp [ho] at h
    | ok o =>
      simp only [ho] at h
      obtain ⟨h1, h2⟩ := ih o.self c1 h
      obtain ⟨a, _, b, _⟩ := setValve_spec k c call.1 call.2 o ho
      refine ⟨by rw [h1, b], ?_⟩
      rw [h2, a]
      cases rest with
      | nil => simp
      | cons x xs =>
        have hne : (x :: xs).getLast? = some ((x :: xs).getLast (by simp)) :=
          List.getLast?_eq_getLast _ _
        rw [List.getLast?_cons_cons, hne]
        simp

/-- C1: in any finite sequence of `setValve` calls (whatever the network write
returns each time), the call made after any number of earlier calls leaves
`getValveState()` equal to the value passed to it, and calls the registered
observer exactly once, with that value, when the value differs from the state
just before the call, and not at all when it equals it; the state just before a
call is the value of the previous call (the starting state for the first). With
a timer service that grants its requests every call returns. -/
theorem C1_setValve_sequence (k : Sdk) (c : ValveController) (cb : Nat)
    (calls : List (Bool × Env)) (s : Bool) (env : Env)
    (hreg : c._on_valve_changed = some cb) :
    ((∀ call ∈ calls, call.2.timerServiceOk) → env.timerServiceOk →
        ∃ c1 o, c.setValveCalls k calls = .ok c1 ∧ c1.setValve k s env = .ok o)
    ∧ (∀ c1 o, c.setValveCalls k calls = .ok c1 → c1.setValve k s env = .ok o →
        c1.getValveState = ((calls.getLast?).map fun call => call.1).getD c.getValveState
        ∧ o.self.getValveState = s
        ∧ observerCalls o.events = if s ≠ c1.getValveState then [(cb, s)] else []) := by
  constructor
  · intro h1 h2
    obtain ⟨c1, hc1⟩ := setValveCalls_ok k calls c h1
    obtain ⟨o, ho⟩ := setValve_ok k c1 s env h2
    exact ⟨c1, o, hc1, ho⟩
  · intro c1 o hc1 ho
    obtain ⟨h1, h2⟩ := setValveCalls_inv k calls c c1 hc1
    obtain ⟨a, _, _, _, _, g, _⟩ := setValve_spec k c1 s env o ho
    refine ⟨h2, a, ?_⟩
    rw [g, h1, hreg]
    rfl

/-- C1 at a concrete input: the default-constructed valve with observer 7,
after the calls on, on, the call off. -/
theorem C1_setValve_sequence_witness :
    (ValveController.construct 10 false (some 7))._on_valve_changed = some 7
    ∧ ∃ c1 o,
        (ValveController.construct 10 false (some 7)).setValveCalls esp32
            [(true, Env.granting 0 0), (true, Env.granting 5 1)] = .ok c1
        ∧ c1.setValve esp32 false (Env.granting 9 0) = .ok o
        ∧ c1.getValveState = true
        ∧ o.self.getValveState = false
        ∧ observerCalls o.events = [(7, false)] := by
  have h := C1_setValve_sequence esp32 (ValveController.construct 10 false (some 7)) 7
    [(true, Env.granting 0 0), (true, Env.granting 5 1)] false (Env.granting 9 0) rfl
  refine ⟨rfl, ?_⟩
  obtain ⟨c1, o, hc1, ho⟩ := h.1 (by simp [Env.timerServiceOk, Env.granting])
    (by simp [Env.timerServiceOk, Env.granting])
  obtain ⟨a, b, d⟩ := h.2 c1 o hc1 ho
  refine ⟨c1, o, hc1, ho, ?_, b, ?_⟩
  · rw [a]; rfl
  · rw [d, a]; rfl

/-- C2: `setValve(s)` returns false if and only if the network attribute write
returns a status other than success, and true exactly when the write returns
success, whatever the state and whether or not `s` changes it; with a timer
service that grants its requests the call always returns. -/
theorem C2_setValve_result (k : Sdk) (c : ValveController) (s : Bool) (env : Env) :
    (env.timerServiceOk → ∃ o, c.setValve k s env = .ok o)
    ∧ (∀ o, c.setValve k s env = .ok o →
        (o.ret = false ↔ env.zcl_status ≠ k.ESP_ZB_ZCL_STATUS_SUCCESS)
        ∧ (o.ret = true ↔ env.zcl_status = k.ESP_ZB_ZCL_STATUS_SUCCESS)) := by
  refine ⟨setValve_ok k c s env, ?_⟩
  intro o ho
  obtain ⟨_, _, _, _, r, _⟩ := setValve_spec k c s env o ho
  rw [r]
  simp

/-- C2 at a concrete input: a repeated on-command whose write the network layer
answers with status 1 returns false; the same command answered with success
returns true. -/
theorem C2_setValve_result_witness :
    (∃ o, valveOnTimed.setValve esp32 true (Env.granting 5 1) = .ok o ∧ o.ret = false)
    ∧ (∃ o, valveOnTimed.setValve esp32 true (Env.granting 5 0) = .ok o ∧ o.ret = true) := by
  have h1 := C2_setValve_result esp32 valveOnTimed true (Env.granting 5 1)
  have h0 := C2_setValve_result esp32 valveOnTimed true (Env.granting 5 0)
  obtain ⟨o1, ho1⟩ := h1.1 (by simp [Env.timerServiceOk, Env.granting])
  obtain ⟨o0, ho0⟩ := h0.1 (by simp [Env.timerServiceOk, Env.granting])
  exact ⟨⟨o1, ho1, ((h1.2 o1 ho1).1).mpr (by simp [Env.granting, esp32])⟩,
    ⟨o0, ho0, ((h0.2 o0 ho0).2).mpr (by simp [Env.granting, esp32])⟩⟩

theorem ValveChanged_zcl_status (k : Sdk) (c : ValveController) (env : Env) (st : Nat) :
    c.ValveChanged k { env with zcl_status := st } = c.ValveChanged k env := rfl

/-- The local effects of `setValve` (the object it leaves and the observer
calls it makes) do not depend on the status the network write returns. -/
theorem setValve_local_zcl_status (k : Sdk) (c : ValveController) (s : Bool) (env : Env)
    (st : Nat) :
    (c.setValve k s { env with zcl_status := st }).map
        (fun o => (o.self, observerCalls o.events))
      = (c.setValve k s env).map (fun o => (o.self, observerCalls o.events)) := by
  by_cases hs : s = c._current_state
  · rw [setValve_same k c s _ hs, setValve_same k c s _ hs]
    simp [Except.map, observerCalls_writeEvents]
  · rw [setValve_changed k c s _ hs, setValve_changed k c s _ hs, ValveChanged_zcl_status]
    cases ValveController.ValveChanged k { c with _current_state := s } env with
    | error f => rfl
    | ok o => simp [Except.map, observerCalls_append, observerCalls_writeEvents]

/-- C3: a rejected network write rolls nothing back. For every state and
value `s`, `setValve(s)` with a rejected write and with an accepted write leave
the same object (current state, on-time value, timer) and make the same
observer calls, or violate the same assertion; the rejected call returns false,
the accepted one true, and after either `getValveState()` is `s`. With a timer
service that grants its requests both calls return. -/
theorem C3_rejected_write_keeps_local_effects (k : Sdk) (c : ValveController) (s : Bool)
    (env : Env) (rejected : Nat) (hrej : rejected ≠ k.ESP_ZB_ZCL_STATUS_SUCCESS) :
    (c.setValve k s { env with zcl_status := rejected }).map
        (fun o => (o.self, observerCalls o.events))
      = (c.setValve k s { env with zcl_status := k.ESP_ZB_ZCL_STATUS_SUCCESS }).map
          (fun o => (o.self, observerCalls o.events))
    ∧ (∀ o, c.setValve k s { env with zcl_status := rejected } = .ok o →
        o.ret = false ∧ o.self.getValveState = s)
    ∧ (∀ o, c.setValve k s { env with zcl_status := k.ESP_ZB_ZCL_STATUS_SUCCESS } = .ok o →
        o.ret = true ∧ o.self.getValveState = s)
    ∧ (env.timerServiceOk →
        (∃ o, c.setValve k s { env with zcl_status := rejected } = .ok o)
        ∧ (∃ o, c.setValve k s { env with zcl_status := k.ESP_ZB_ZCL_STATUS_SUCCESS } = .ok o)) := by
  refine ⟨?_, ?_, ?_, ?_⟩
  · exact (setValve_local_zcl_status k c s env rejected).trans
      (setValve_local_zcl_status k c s env k.ESP_ZB_ZCL_STATUS_SUCCESS).symm
  · intro o ho
    obtain ⟨a, _, _, _, r, _⟩ := setValve_spec k c s _ o ho
    exact ⟨by rw [r]; simpa using hrej, a⟩
  · intro o ho
    obtain ⟨a, _, _, _, r, _⟩ := setValve_spec k c s _ o ho
    exact ⟨by rw [r]; simp, a⟩
  · intro hT
    exact ⟨setValve_ok k c s _ hT, setValve_ok k c s _ hT⟩

/-- C3 at a concrete input: switching the freshly constructed valve on while
the network layer answers status 1. -/
theorem C3_rejected_write_keeps_local_effects_witness :
    (1 : Nat) ≠ esp32.ESP_ZB_ZCL_STATUS_SUCCESS
    ∧ ((ValveController.construct 10 false (some 7)).setValve esp32 true
          (Env.granting 0 1)).map (fun o => (o.ret, o.self, observerCalls o.events))
        = .ok (false,
            { _endpoint := 10, _on_valve_changed := some 7, _current_state := true,
              _on_time_value := 3600,
              _turn_off_timer := some { period := 360000, expiry := some 360000 } },
            [(7, true)])
    ∧ ((ValveController.construct 10 false (some 7)).setValve esp32 true
          { Env.granting 0 1 with zcl_status := 1 }).map
            (fun o => (o.self, observerCalls o.events))
        = ((ValveController.construct 10 false (some 7)).setValve esp32 true
          { Env.granting 0 1 with zcl_status := esp32.ESP_ZB_ZCL_STATUS_SUCCESS }).map
            (fun o => (o.self, observerCalls o.events)) :=
  ⟨by decide, rfl,
    (C3_rejected_write_keeps_local_effects esp32 (ValveController.construct 10 false (some 7))
      true (Env.granting 0 1) 1 (by decide)).1⟩

/-- C4: every `setValve(s)` that returns, also one where `s` equals the current
state, has issued exactly one attribute write to the network layer: to this
endpoint, on the on/off cluster (server role), for the on/off attribute, with
value `s`, which is the state after the call. With a timer service that grants
its requests the call always returns. -/
theorem C4_setValve_always_writes (k : Sdk) (c : ValveController) (s : Bool) (env : Env) :
    (env.timerServiceOk → ∃ o, c.setValve k s env = .ok o)
    ∧ (∀ o, c.setValve k s env = .ok o →
        netWrites o.events
          = [{ endpoint := c.getEndpoint, cluster_id := k.ESP_ZB_ZCL_CLUSTER_ID_ON_OFF,
               cluster_role := k.ESP_ZB_ZCL_CLUSTER_SERVER_ROLE,
               attr_id := k.ESP_ZB_ZCL_ATTR_ON_OFF_ON_OFF_ID, value := s, check := false }]
        ∧ o.self.getValveState = s) := by
  refine ⟨setValve_ok k c s env, ?_⟩
  intro o ho
  obtain ⟨a, _, _, _, _, _, w⟩ := setValve_spec k c s env o ho
  exact ⟨w, a⟩

/-- C4 at a concrete input: a repeated on-command on the valve that is already
on still issues its one attribute write, with value true. -/
theorem C4_setValve_always_writes_witness :
    ∃ o, valveOnTimed.setValve esp32 true (Env.granting 5 0) = .ok o
      ∧ netWrites o.events
          = [{ endpoint := 10, cluster_id := 6, cluster_role := 1, attr_id := 0,
               value := true, check := false }] := by
  have h := C4_setValve_always_writes esp32 valveOnTimed true (Env.granting 5 0)
  obtain ⟨o, ho⟩ := h.1 (by simp [Env.timerServiceOk, Env.granting])
  exact ⟨o, ho, (h.2 o ho).1⟩

theorem timerPending_stop (c : ValveController) :
    ({ c with _turn_off_timer := c._turn_off_timer.map xTimerStop } : ValveController).timerPending
      = false := by
  unfold ValveController.timerPending
  cases c._turn_off_timer <;> simp [xTimerStop]

/-- Switching a valve that is on to off: the complete outcome of `setValve(false)`. -/
theorem setValve_off_from_on (k : Sdk) (c : ValveController) (env : Env)
    (hon : c._current_state = true) :
    c.setValve k false env
      = .ok { ret := decide (env.zcl_status = k.ESP_ZB_ZCL_STATUS_SUCCESS),
              self := { c with _current_state := false,
                               _turn_off_timer := c._turn_off_timer.map xTimerStop },
              events :=
                ({ c with _current_state := false } : ValveController).notifyEvents
                  ++ ({ c with _current_state := false,
                               _turn_off_timer := c._turn_off_timer.map xTimerStop }
                        : ValveController).writeEvents k env } := by
  rw [setValve_changed k c false env (by simp [hon]), ValveChanged_off k _ env rfl]

/-- C5: auto-off. From a state that is on with a timer armed and an observer
registered, `TurnOffCallback` does exactly what an explicit `setValve(false)`
does (same object, same calls); it returns, and afterwards `getValveState()` is
false, no timer is pending and the observer has been called exactly once, with
false. The expiry of the due timer in the timer service has this same outcome. -/
theorem C5_auto_off (k : Sdk) (c : ValveController) (env : Env) (cb : Nat)
    (hon : c._current_state = true) (harmed : c.timerPending = true)
    (hreg : c._on_valve_changed = some cb) :
    ∃ o, c.setValve k false env = .ok o
      ∧ c.TurnOffCallback k env = .ok { ret := (), self := o.self, events := o.events }
      ∧ o.self.getValveState = false
      ∧ o.self.timerPending = false
      ∧ observerCalls o.events = [(cb, false)]
      ∧ (∃ e, c.deadline = some e
          ∧ (e ≤ env.now →
              c.timerExpires k env = .ok { ret := (), self := o.self, events := o.events })) := by
  refine ⟨_, setValve_off_from_on k c env hon, ?_, rfl, ?_, ?_, ?_⟩
  · simp [ValveController.TurnOffCallback, setValve_off_from_on k c env hon]
  · exact timerPending_stop _
  · simp [observerCalls_append, observerCalls_writeEvents, observerCalls_notifyEvents, hreg]
  · unfold ValveController.timerPending at harmed
    cases ht : c._turn_off_timer with
    | none => simp [ht] at harmed
    | some t =>
      simp only [ht] at harmed
      obtain ⟨e, he⟩ := Option.isSome_iff_exists.mp harmed
      refine ⟨e, by simp [ValveController.deadline, ht, he], ?_⟩
      intro hdue
      unfold ValveController.timerExpires
      simp only [ht, he, hdue, if_true]
      unfold ValveController.TurnOffCallback
      rw [setValve_off_from_on k { c with _turn_off_timer := some (xTimerStop t) } env hon]
      simp [xTimerStop, ValveController.notifyEvents, ValveController.writeEvents]

/-- C5 at a concrete input: the valve switched on at tick 0 with the default
on-time, and the timer firing at tick 360000. -/
theorem C5_auto_off_witness :
    ∃ o : Outcome Bool,
      ({ _endpoint := 10, _on_valve_changed := some 7, _current_state := true,
         _on_time_value := 3600,
         _turn_off_timer := some { period := 360000, expiry := some 360000 } }
        : ValveController).timerExpires esp32 (Env.granting 360000 0)
        = .ok { ret := (), self := o.self, events := o.events }
      ∧ o.self.getValveState = false
      ∧ o.self.timerPending = false
      ∧ observerCalls o.events = [(7, false)] := by
  obtain ⟨o, _, _, h3, h4, h5, e, he, h6⟩ := C5_auto_off esp32
    { _endpoint := 10, _on_valve_changed := some 7, _current_state := true,
      _on_time_value := 3600,
      _turn_off_timer := some { period := 360000, expiry := some 360000 } }
    (Env.granting 360000 0) 7 rfl rfl rfl
  have he1 : e = 360000 := by
    simp [ValveController.deadline] at he
    exact he.symm
  exact ⟨o, h6 (by simp [he1, Env.granting]), h3, h4, h5⟩

/-! ## Inbound attribute writes -/

theorem zbAttributeSet_unsupported (k : Sdk) (c : ValveController)
    (m : esp_zb_zcl_set_attr_value_message_t) (env : Env) (h : k.unsupported m) :
    c.zbAttributeSet k m env = .ok { ret := (), self := c, events := [Event.log_w] } := by
  unfold ValveController.zbAttributeSet
  rcases h with h | ⟨h1, h2⟩
  · simp [h]
  · by_cases hc : m.info_cluster = k.ESP_ZB_ZCL_CLUSTER_ID_ON_OFF
    · simp only [hc, if_true, h1, h2, if_false]
      simp
    · simp [hc]

theorem zbAttributeSet_onOff (k : Sdk) (c : ValveController) (v : Bool) (env : Env) :
    c.zbAttributeSet k (k.onOffMessage v) env
      = match ValveController.ValveChanged k { c with _current_state := v } env with
        | .error f => .error f
        | .ok o => .ok { ret := (), self := o.self, events := o.events } := by
  have hv : (k.onOffMessage v).as_bool = v := by
    cases v <;> simp [Sdk.onOffMessage, esp_zb_zcl_set_attr_value_message_t.as_bool]
  unfold ValveController.zbAttributeSet
  rw [hv]
  simp [Sdk.onOffMessage]

theorem zbAttributeSet_onTime (k : Sdk) (c : ValveController) (n : Nat) (env : Env)
    (hk : k.attrsDistinct) :
    c.zbAttributeSet k (k.onTimeMessage n) env
      = match ValveController.ValveChanged k { c with _on_time_value := n % 65536 } env with
        | .error f => .error f
        | .ok o => .ok { ret := (), self := o.self, events := o.events } := by
  have hk1 : ¬ k.ESP_ZB_ZCL_ATTR_ON_OFF_ON_TIME = k.ESP_ZB_ZCL_ATTR_ON_OFF_ON_OFF_ID :=
    fun h => hk h.symm
  unfold ValveController.zbAttributeSet
  simp [Sdk.onTimeMessage, esp_zb_zcl_set_attr_value_message_t.as_u16, hk1]

/-! ## Invariants of the reachable states -/

theorem timerInv_of_stopped (c : ValveController) :
    ({ c with _turn_off_timer := c._turn_off_timer.map xTimerStop } : ValveController).timerInv := by
  refine ⟨fun h => ?_, ?_⟩
  · rw [timerPending_stop] at h
    cases h
  · intro t ht he
    cases h0 : c._turn_off_timer with
    | none => simp [h0] at ht
    | some t0 =>
      simp only [h0, Option.map_some', Option.some.injEq] at ht
      subst ht
      simp [xTimerStop] at he

theorem ValveChanged_timerInv (k : Sdk) (c : ValveController) (env : Env) (o : Outcome Unit)
    (h0 : c.armedPeriodNonzero) (h : c.ValveChanged k env = .ok o) : o.self.timerInv := by
  cases hs : c._current_state with
  | false =>
    rw [ValveChanged_off k c env hs] at h
    cases h
    exact timerInv_of_stopped c
  | true =>
    by_cases hz : c._on_time_value = 0
    · rw [ValveChanged_on_untimed k c env hs hz] at h
      cases h
      exact ⟨fun _ => hs, h0⟩
    · rw [ValveChanged_on_timed k c env hs hz] at h
      cases h1 : c.StartTurnOffTimer (c.turnOffPeriod k) env with
      | error f => simp [h1] at h
      | ok c1 =>
        simp only [h1] at h
        cases h
        by_cases hp : c.turnOffPeriod k = 0
        · rw [hp, StartTurnOffTimer_zero] at h1
          cases h1
          exact timerInv_of_stopped c
        · have := StartTurnOffTimer_pos_inv c c1 _ env hp h1
          subst this
          refine ⟨fun _ => hs, ?_⟩
          intro t ht _
          simp only [Option.some.injEq] at ht
          subst ht
          exact hp

theorem setValve_timerInv (k : Sdk) (c : ValveController) (s : Bool) (env : Env)
    (o : Outcome Bool) (hc : c.timerInv) (h : c.setValve k s env = .ok o) : o.self.timerInv := by
  by_cases hs : s = c._current_state
  · rw [setValve_same k c s env hs] at h
    cases h
    exact hc
  · rw [setValve_changed k c s env hs] at h
    cases h1 : ValveController.ValveChanged k { c with _current_state := s } env with
    | error f => simp [h1] at h
    | ok o1 =>
      simp only [h1] at h
      cases h
      exact ValveChanged_timerInv k { c with _current_state := s } env o1 hc.2 h1

theorem zbAttributeSet_timerInv (k : Sdk) (c : ValveController)
    (m : esp_zb_zcl_set_attr_value_message_t) (env : Env) (o : Outcome Unit)
    (hc : c.timerInv) (h : c.zbAttributeSet k m env = .ok o) : o.self.timerInv := by
  unfold ValveController.zbAttributeSet at h
  by_cases h0 : m.info_cluster = k.ESP_ZB_ZCL_CLUSTER_ID_ON_OFF
  · by_cases h1 : m.attribute_id = k.ESP_ZB_ZCL_ATTR_ON_OFF_ON_OFF_ID
        ∧ m.attribute_data_type = k.ESP_ZB_ZCL_ATTR_TYPE_BOOL
    · simp only [if_pos h0, if_pos h1, if_true] at h
      cases h2 : ValveController.ValveChanged k { c with _current_state := m.as_bool } env with
      | error f => simp [h2] at h
      | ok o1 =>
        simp only [h2] at h
        cases h
        exact ValveChanged_timerInv k { c with _current_state := m.as_bool } env o1 hc.2 h2
    · by_cases h3 : m.attribute_id = k.ESP_ZB_ZCL_ATTR_ON_OFF_ON_TIME
          ∧ m.attribute_data_type = k.ESP_ZB_ZCL_ATTR_TYPE_U16
      · simp only [if_pos h0, if_neg h1, if_pos h3, if_true] at h
        cases h2 : ValveController.ValveChanged k { c with _on_time_value := m.as_u16 } env with
        | error f => simp [h2] at h
        | ok o1 =>
          simp only [h2] at h
          cases h
          exact ValveChanged_timerInv k { c with _on_time_value := m.as_u16 } env o1 hc.2 h2
      · simp only [if_pos h0, if_neg h1, if_neg h3] at h
        simp at h
        subst h
        exact hc
  · simp only [if_neg h0] at h
    simp at h
    subst h
    exact hc

theorem timerExpires_timerInv (k : Sdk) (c : ValveController) (env : Env) (o : Outcome Unit)
    (hc : c.timerInv) (h : c.timerExpires k env = .ok o) : o.self.timerInv := by
  unfold ValveController.timerExpires at h
  cases ht : c._turn_off_timer with
  | none =>
    simp [ht] at h
    subst h
    exact hc
  | some t =>
    cases he : t.expiry with
    | none =>
      simp [ht, he] at h
      subst h
      exact hc
    | some e =>
      by_cases hdue : e ≤ env.now
      · simp only [ht, he, hdue, if_true] at h
        unfold ValveController.TurnOffCallback at h
        cases h1 : ValveController.setValve k
            { c with _turn_off_timer := some (xTimerStop t) } false env with
        | error f => simp [h1] at h
        | ok o1 =>
          simp only [h1] at h
          cases h
          refine setValve_timerInv k _ false env o1 ?_ h1
          have := timerInv_of_stopped c
          rw [ht] at this
          exact this
      · simp [ht, he, hdue] at h
        subst h
        exact hc

theorem step_timerInv (k : Sdk) (c c1 : ValveController) (a : ValveAction)
    (hc : c.timerInv) (h : c.step k a = .ok c1) : c1.timerInv := by
  cases a with
  | setValve s env =>
    simp only [ValveController.step] at h
    cases h1 : c.setValve k s env with
    | error f => simp [h1, Except.map] at h
    | ok o =>
      simp only [h1, Except.map, Except.ok.injEq] at h
      subst h
      exact setValve_timerInv k c s env o hc h1
  | restoreValve env =>
    simp only [ValveController.step, ValveController.restoreValve] at h
    cases h1 : c.ValveChanged k env with
    | error f => simp [h1, Except.map] at h
    | ok o =>
      simp only [h1, Except.map, Except.ok.injEq] at h
      subst h
      exact ValveChanged_timerInv k c env o hc.2 h1
  | onValveChanged cb =>
    simp only [ValveController.step, Except.ok.injEq] at h
    subst h
    exact hc
  | zbAttributeSet m env =>
    simp only [ValveController.step] at h
    cases h1 : c.zbAttributeSet k m env with
    | error f => simp [h1, Except.map] at h
    | ok o =>
      simp only [h1, Except.map, Except.ok.injEq] at h
      subst h
      exact zbAttributeSet_timerInv k c m env o hc h1
  | timerExpires env =>
    simp only [ValveController.step] at h
    cases h1 : c.timerExpires k env with
    | error f => simp [h1, Except.map] at h
    | ok o =>
      simp only [h1, Except.map, Except.ok.injEq] at h
      subst h
      exact timerExpires_timerInv k c env o hc h1

theorem run_timerInv (k : Sdk) (actions : List ValveAction) :
    ∀ (c c1 : ValveController), c.timerInv → c.run k actions = .ok c1 → c1.timerInv := by
  induction actions with
  | nil =>
    intro c c1 hc h
    simp only [ValveController.run, Except.ok.injEq] at h
    subst h
    exact hc
  | cons a rest ih =>
    intro c c1 hc h
    unfold ValveController.run at h
    cases h1 : c.step k a with
    | error f => simp [h1] at h
    | ok c2 =>
      simp only [h1] at h
      exact ih c2 c1 (step_timerInv k c c2 a hc h1) h

theorem reachable_timerInv (k : Sdk) (c : ValveController) (h : c.Reachable k) :
    c.timerInv := by
  obtain ⟨endpoint, s0, cb0, actions, hrun⟩ := h
  refine run_timerInv k actions _ c ?_ hrun
  refine ⟨fun hp => ?_, ?_⟩
  · simp [ValveController.timerPending, ValveController.construct] at hp
  · intro t ht
    simp [ValveController.construct] at ht

/-! ## Claims about the timer -/

/-- The object `valveOnTimed` is the state reached from construction by one
`setValve(true)` at tick 0. -/
theorem valveOnTimed_reached :
    (ValveController.construct 10 false (some 7)).run esp32
        [ValveAction.setValve true (Env.granting 0 0)] = .ok valveOnTimed := rfl

/-- C6 fails on the code: with the default on-time 3600 and a 1 ms tick,
`setValve(true)` at tick 0 arms the timer for tick 360000 (t=360s); a second
`setValve(true)` at tick 300000 (t=300s) leaves the deadline at tick 360000 and
does not move it to tick 660000. -/
theorem C6_counterexample :
    ((ValveController.construct 10 false (some 7)).run esp32
        [ValveAction.setValve true (Env.granting 0 0)]).map ValveController.deadline
      = .ok (some 360000)
    ∧ ((ValveController.construct 10 false (some 7)).run esp32
        [ValveAction.setValve true (Env.granting 0 0),
         ValveAction.setValve true (Env.granting 300000 0)]).map ValveController.deadline
      = .ok (some 360000)
    ∧ ((ValveController.construct 10 false (some 7)).run esp32
        [ValveAction.setValve true (Env.granting 0 0),
         ValveAction.setValve true (Env.granting 300000 0)]).map ValveController.deadline
      ≠ .ok (some 660000) := by
  refine ⟨rfl, rfl, ?_⟩
  intro h
  have h2 : ((ValveController.construct 10 false (some 7)).run esp32
        [ValveAction.setValve true (Env.granting 0 0),
         ValveAction.setValve true (Env.granting 300000 0)]).map ValveController.deadline
      = .ok (some 360000) := rfl
  rw [h2] at h
  simp at h

/-- C6 as amended: when the valve is already on with a timer pending, a second
`setValve(true)` returns and leaves the object as it was: the pending deadline
and the period are unchanged (the timer is not re-armed), the observer is not
called, and only the attribute write is issued. -/
theorem C6_repeated_on_keeps_deadline (k : Sdk) (c : ValveController) (env : Env)
    (hon : c._current_state = true) (harmed : c.timerPending = true) :
    ∃ o, c.setValve k true env = .ok o
      ∧ o.self = c
      ∧ o.self.timerPending = true
      ∧ o.self.deadline = c.deadline
      ∧ observerCalls o.events = []
      ∧ netWrites o.events
          = [{ endpoint := c.getEndpoint, cluster_id := k.ESP_ZB_ZCL_CLUSTER_ID_ON_OFF,
               cluster_role := k.ESP_ZB_ZCL_CLUSTER_SERVER_ROLE,
               attr_id := k.ESP_ZB_ZCL_ATTR_ON_OFF_ON_OFF_ID, value := true, check := false }] := by
  refine ⟨_, setValve_same k c true env hon.symm, rfl, harmed, rfl, ?_, ?_⟩
  · exact observerCalls_writeEvents k c env
  · rw [netWrites_writeEvents, hon]
    rfl

/-- C6 as amended, at the concrete scenario: the second on-command at tick
300000 leaves the deadline at tick 360000. -/
theorem C6_repeated_on_keeps_deadline_witness :
    valveOnTimed._current_state = true ∧ valveOnTimed.timerPending = true
    ∧ ∃ o, valveOnTimed.setValve esp32 true (Env.granting 300000 0) = .ok o
        ∧ o.self.deadline = some 360000 := by
  obtain ⟨o, h1, _, _, h4, _⟩ :=
    C6_repeated_on_keeps_deadline esp32 valveOnTimed (Env.granting 300000 0) rfl rfl
  exact ⟨rfl, rfl, o, h1, by rw [h4]; rfl⟩

/-- C7, the code at the failing input: the valve is switched on at tick 0
(timer due at tick 360000) and an inbound write of on-time 0 arrives at tick
300000. The write returns with `getOnTime()` 0 and `getValveState()` true, but
the timer is still pending with deadline 360000: the on branch of the reaction
calls no timer function when the on-time is 0. When that timer expires at tick
360000 the valve is switched off although no off command was given. -/
theorem C7_on_time_zero_leaves_timer_pending :
    (valveOnTimed.zbAttributeSet esp32 (esp32.onTimeMessage 0) (Env.granting 300000 0)).map
        (fun o => (o.self.getOnTime, o.self.getValveState, o.self.timerPending, o.self.deadline))
      = .ok (0, true, true, some 360000)
    ∧ ((ValveController.construct 10 false (some 7)).run esp32
        [ValveAction.setValve true (Env.granting 0 0),
         ValveAction.zbAttributeSet (esp32.onTimeMessage 0) (Env.granting 300000 0),
         ValveAction.timerExpires (Env.granting 360000 0)]).map
        (fun c => (c.getOnTime, c.getValveState, c.timerPending))
      = .ok (0, false, false) :=
  ⟨rfl, rfl⟩

/-- C8, the code at the failing input: the state reached from construction by
`setValve(true)` at tick 0 followed by an inbound write of on-time 0 at tick
300000 has a timer pending (due at tick 360000) although `on_time_value` is 0,
so the invariant does not hold in it. -/
theorem C8_reachable_pending_timer_with_zero_on_time :
    ∃ c : ValveController, c.Reachable esp32
      ∧ c.timerPending = true
      ∧ c.deadline = some 360000
      ∧ c._current_state = true
      ∧ c._on_time_value = 0
      ∧ ¬ (c._current_state = true ∧ c._on_time_value ≠ 0) :=
  ⟨{ _endpoint := 10, _on_valve_changed := some 7, _current_state := true, _on_time_value := 0,
     _turn_off_timer := some { period := 360000, expiry := some 360000 } },
   ⟨10, false, some 7,
    [ValveAction.setValve true (Env.granting 0 0),
     ValveAction.zbAttributeSet (esp32.onTimeMessage 0) (Env.granting 300000 0)], rfl⟩,
   rfl, rfl, rfl, rfl, by simp⟩

/-- C9: setting the state to false always cancels any pending timer. From a
state that is on, each operation that moves `current_state` to false returns
and leaves no timer pending: `setValve(false)`, an inbound on/off write of
false, the timer-fired callback, and the expiry of a due timer. Consequently in
every reachable state with `current_state == false` no timer is pending. -/
theorem C9_off_cancels_timer (k : Sdk) (c : ValveController) (env : Env)
    (hon : c._current_state = true) :
    (∃ o, c.setValve k false env = .ok o
        ∧ o.self.getValveState = false ∧ o.self.timerPending = false)
    ∧ (∃ o, c.zbAttributeSet k (k.onOffMessage false) env = .ok o
        ∧ o.self.getValveState = false ∧ o.self.timerPending = false)
    ∧ (∃ o, c.TurnOffCallback k env = .ok o
        ∧ o.self.getValveState = false ∧ o.self.timerPending = false)
    ∧ (∀ e, c.deadline = some e → e ≤ env.now →
        ∃ o, c.timerExpires k env = .ok o
          ∧ o.self.getValveState = false ∧ o.self.timerPending = false)
    ∧ (∀ r : ValveController, r.Reachable k → r._current_state = false →
        r.timerPending = false) := by
  have hz : c.zbAttributeSet k (k.onOffMessage false) env
      = .ok { ret := (),
              self := { c with _current_state := false,
                               _turn_off_timer := c._turn_off_timer.map xTimerStop },
              events := ({ c with _current_state := false } : ValveController).notifyEvents } := by
    rw [zbAttributeSet_onOff, ValveChanged_off k _ env rfl]
  have hcb : ∀ c0 : ValveController, c0._current_state = true →
      c0.TurnOffCallback k env
        = .ok { ret := (),
                self := { c0 with _current_state := false,
                                  _turn_off_timer := c0._turn_off_timer.map xTimerStop },
                events :=
                  ({ c0 with _current_state := false } : ValveController).notifyEvents
                    ++ ({ c0 with _current_state := false,
                                  _turn_off_timer := c0._turn_off_timer.map xTimerStop }
                          : ValveController).writeEvents k env } := by
    intro c0 h0
    simp only [ValveController.TurnOffCallback, setValve_off_from_on k c0 env h0]
  refine ⟨?_, ?_, ?_, ?_, ?_⟩
  · exact ⟨_, setValve_off_from_on k c env hon, rfl, timerPending_stop _⟩
  · exact ⟨_, hz, rfl, timerPending_stop _⟩
  · exact ⟨_, hcb c hon, rfl, timerPending_stop _⟩
  · intro e he hdue
    unfold ValveController.deadline at he
    cases ht : c._turn_off_timer with
    | none => simp [ht] at he
    | some t =>
      simp only [ht] at he
      have hx : c.timerExpires k env
          = ValveController.TurnOffCallback k
              { c with _turn_off_timer := some (xTimerStop t) } env := by
        unfold ValveController.timerExpires
        simp only [ht, he, hdue, if_true]
      rw [hx, hcb { c with _turn_off_timer := some (xTimerStop t) } hon]
      exact ⟨_, rfl, rfl,
        timerPending_stop { c with _turn_off_timer := some (xTimerStop t) }⟩
  · intro r hr hoff
    have h := (reachable_timerInv k r hr).1
    cases hp : r.timerPending with
    | false => rfl
    | true =>
      rw [h hp] at hoff
      cases hoff

/-- C9 at a concrete input: the valve that is on with its timer pending. -/
theorem C9_off_cancels_timer_witness :
    valveOnTimed._current_state = true
    ∧ (∃ o, valveOnTimed.setValve esp32 false (Env.granting 5 0) = .ok o
        ∧ o.self.getValveState = false ∧ o.self.timerPending = false)
    ∧ (∃ o, valveOnTimed.zbAttributeSet esp32 (esp32.onOffMessage false) (Env.granting 5 0)
          = .ok o
        ∧ o.self.getValveState = false ∧ o.self.timerPending = false) :=
  have h := C9_off_cancels_timer esp32 valveOnTimed (Env.granting 5 0) rfl
  ⟨rfl, h.1, h.2.1⟩

/-- C10: an inbound message whose cluster is not the on/off cluster, or whose
attribute id and value type are neither the on/off attribute with boolean type
nor the on-time attribute with 16-bit unsigned type, is dropped:
`zbAttributeSet` returns with the object unchanged (current state, on-time
value, timer), without calling the observer and without a network write. -/
theorem C10_unsupported_message_ignored (k : Sdk) (c : ValveController)
    (m : esp_zb_zcl_set_attr_value_message_t) (env : Env) (h : k.unsupported m) :
    ∃ o, c.zbAttributeSet k m env = .ok o
      ∧ o.self = c
      ∧ observerCalls o.events = []
      ∧ netWrites o.events = [] :=
  ⟨_, zbAttributeSet_unsupported k c m env h, rfl, rfl, rfl⟩

/-- C10 at a concrete input: an on/off write with a 16-bit value type, sent to
the valve that is on with its timer pending. -/
theorem C10_unsupported_message_ignored_witness :
    esp32.unsupported { info_cluster := 6, attribute_id := 0, attribute_data_type := 33,
                        attribute_data_value := 0 }
    ∧ ∃ o, valveOnTimed.zbAttributeSet esp32
          { info_cluster := 6, attribute_id := 0, attribute_data_type := 33,
            attribute_data_value := 0 } (Env.granting 5 0) = .ok o
        ∧ o.self = valveOnTimed ∧ observerCalls o.events = [] ∧ netWrites o.events = [] := by
  have hu : esp32.unsupported { info_cluster := 6, attribute_id := 0, attribute_data_type := 33,
                                attribute_data_value := 0 } := by
    simp [Sdk.unsupported, esp32]
  exact ⟨hu, C10_unsupported_message_ignored esp32 valveOnTimed _ (Env.granting 5 0) hu⟩

/-! ## The reaction with the valve on -/

theorem ValveChanged_on_armed (k : Sdk) (c : ValveController) (env : Env) (o : Outcome Unit)
    (hon : c._current_state = true) (hnz : c._on_time_value ≠ 0)
    (hp : c.turnOffPeriod k ≠ 0) (h : c.ValveChanged k env = .ok o) :
    o = { ret := (), self := { c with _turn_off_timer := some (c.armedTimer k env) },
          events := c.notifyEvents } := by
  rw [ValveChanged_on_timed k c env hon hnz] at h
  cases h1 : c.StartTurnOffTimer (c.turnOffPeriod k) env with
  | error f => simp [h1] at h
  | ok c1 =>
    simp only [h1] at h
    cases h
    have := StartTurnOffTimer_pos_inv c c1 _ env hp h1
    subst this
    rfl

theorem ValveChanged_on_armed_ok (k : Sdk) (c : ValveController) (env : Env)
    (hon : c._current_state = true) (hnz : c._on_time_value ≠ 0)
    (hp : c.turnOffPeriod k ≠ 0) (hT : env.timerServiceOk) :
    c.ValveChanged k env
      = .ok { ret := (), self := { c with _turn_off_timer := some (c.armedTimer k env) },
              events := c.notifyEvents } := by
  obtain ⟨o, ho⟩ := ValveChanged_ok k c env hT
  rw [ho, ValveChanged_on_armed k c env o hon hnz hp ho]

theorem netWrites_ValveChanged (k : Sdk) (c : ValveController) (env : Env) (o : Outcome Unit)
    (h : c.ValveChanged k env = .ok o) : netWrites o.events = [] := by
  obtain ⟨_, _, _, _, g⟩ := ValveChanged_frame k c env o h
  rw [g, netWrites_notifyEvents]

theorem turnOffPeriod_eq (k : Sdk) (c : ValveController) (h : c._on_time_value ≤ 65535) :
    c.turnOffPeriod k = (c._on_time_value * 100) / k.portTICK_PERIOD_MS := by
  unfold ValveController.turnOffPeriod
  apply Nat.mod_eq_of_lt
  have h1 : (c._on_time_value * 100) / k.portTICK_PERIOD_MS ≤ c._on_time_value * 100 :=
    Nat.div_le_self _ _
  have h2 : c._on_time_value * 100 ≤ 6553500 := by omega
  have h3 : (6553500 : Nat) < 2 ^ 32 := by norm_num
  omega

theorem turnOffPeriod_pos (k : Sdk) (c : ValveController) (h : c._on_time_value ≤ 65535)
    (hnz : c._on_time_value ≠ 0) (ht0 : 0 < k.portTICK_PERIOD_MS)
    (ht1 : k.portTICK_PERIOD_MS ≤ 100) : c.turnOffPeriod k ≠ 0 := by
  rw [turnOffPeriod_eq k c h]
  have h1 : k.portTICK_PERIOD_MS ≤ c._on_time_value * 100 := by
    have : 1 ≤ c._on_time_value := Nat.one_le_iff_ne_zero.mpr hnz
    omega
  exact Nat.pos_iff_ne_zero.mp (Nat.div_pos h1 ht0)

theorem observerCalls_ValveChanged (k : Sdk) (c : ValveController) (env : Env)
    (o : Outcome Unit) (h : c.ValveChanged k env = .ok o) :
    observerCalls o.events
      = match c._on_valve_changed with
        | some cb => [(cb, c._current_state)]
        | none => [] := by
  obtain ⟨_, _, _, _, g⟩ := ValveChanged_frame k c env o h
  rw [g, observerCalls_notifyEvents]

/-- C12: an inbound write of the on-time attribute (16-bit unsigned type) with
a 16-bit value `n` is the state-change reaction run once on the object with
`on_time_value := n`. When it returns, `getOnTime()` is `n`, the current state
is unchanged, no network write was issued and the observer was called exactly
once, with the current state (not at all when none is registered). If the
valve is on and `n != 0` (tick period between 1 and 100 ms), the timer is the
one armed at this call for the new duration: period `n * 100 / tick` ticks,
due that many ticks from now, whatever deadline was pending before. With a
timer service that grants its requests the write returns. -/
theorem C12_inbound_on_time_write (k : Sdk) (c : ValveController) (n : Nat) (env : Env)
    (hk : k.attrsDistinct) (hn : n ≤ 65535) :
    c.zbAttributeSet k (k.onTimeMessage n) env
        = ValveController.restoreValve k { c with _on_time_value := n } env
    ∧ (∀ o, c.zbAttributeSet k (k.onTimeMessage n) env = .ok o →
        o.self.getOnTime = n
        ∧ o.self.getValveState = c.getValveState
        ∧ netWrites o.events = []
        ∧ observerCalls o.events
            = (match c._on_valve_changed with
               | some cb => [(cb, c._current_state)]
               | none => [])
        ∧ (c._current_state = true → n ≠ 0 →
            0 < k.portTICK_PERIOD_MS → k.portTICK_PERIOD_MS ≤ 100 →
            n * 100 / k.portTICK_PERIOD_MS ≠ 0
            ∧ o.self._turn_off_timer
                = some { period := n * 100 / k.portTICK_PERIOD_MS,
                         expiry := some (env.now + n * 100 / k.portTICK_PERIOD_MS) }))
    ∧ (env.timerServiceOk → ∃ o, c.zbAttributeSet k (k.onTimeMessage n) env = .ok o) := by
  have hmod : n % 65536 = n := Nat.mod_eq_of_lt (by omega)
  have hz : c.zbAttributeSet k (k.onTimeMessage n) env
      = ValveController.restoreValve k { c with _on_time_value := n } env := by
    rw [zbAttributeSet_onTime k c n env hk, hmod]
    unfold ValveController.restoreValve
    cases ValveController.ValveChanged k { c with _on_time_value := n } env <;> rfl
  refine ⟨hz, ?_, ?_⟩
  · intro o ho
    rw [hz] at ho
    unfold ValveController.restoreValve at ho
    obtain ⟨_, _, a, b, _⟩ := ValveChanged_frame k _ env o ho
    refine ⟨b, a, netWrites_ValveChanged k _ env o ho,
      observerCalls_ValveChanged k { c with _on_time_value := n } env o ho, ?_⟩
    intro hon hnz ht0 ht1
    have hle : ({ c with _on_time_value := n } : ValveController)._on_time_value ≤ 65535 := hn
    have hpe := turnOffPeriod_eq k { c with _on_time_value := n } hle
    have hpp := turnOffPeriod_pos k { c with _on_time_value := n } hle hnz ht0 ht1
    have ho2 := ValveChanged_on_armed k { c with _on_time_value := n } env o hon hnz hpp ho
    simp only [] at hpe
    refine ⟨by rw [← hpe]; exact hpp, ?_⟩
    rw [ho2]
    simp only [ValveController.armedTimer, hpe]
  · intro hT
    rw [hz]
    exact ValveChanged_ok k _ env hT

/-- C12 at a concrete input: with the valve on and the timer due at tick
360000, an inbound write of on-time 50 at tick 300000 replaces the deadline by
tick 305000. -/
theorem C12_inbound_on_time_write_witness :
    esp32.attrsDistinct ∧ (50 : Nat) ≤ 65535
    ∧ ∃ o, valveOnTimed.zbAttributeSet esp32 (esp32.onTimeMessage 50) (Env.granting 300000 0)
          = .ok o
        ∧ o.self.getOnTime = 50
        ∧ observerCalls o.events = [(7, true)]
        ∧ o.self._turn_off_timer = some { period := 5000, expiry := some 305000 } := by
  have hk : esp32.attrsDistinct := by
    simp [Sdk.attrsDistinct, esp32]
  have h := C12_inbound_on_time_write esp32 valveOnTimed 50 (Env.granting 300000 0) hk
    (by norm_num)
  obtain ⟨o, ho⟩ := h.2.2 (by simp [Env.timerServiceOk, Env.granting])
  obtain ⟨a, _, _, d, e⟩ := h.2.1 o ho
  refine ⟨hk, by norm_num, o, ho, a, d, ?_⟩
  exact (e rfl (by norm_num) (by simp [esp32]) (by simp [esp32])).2

/-! ## On without a timeout -/

theorem timerExpires_not_pending (k : Sdk) (c : ValveController) (env : Env)
    (h : c.timerPending = false) :
    c.timerExpires k env = .ok { ret := (), self := c, events := [] } := by
  unfold ValveController.timerExpires
  unfold ValveController.timerPending at h
  cases ht : c._turn_off_timer with
  | none => rfl
  | some t =>
    simp only [ht] at h
    cases he : t.expiry with
    | none => simp [he]
    | some e => simp [he] at h

/-- A quiet action on a valve that is on with on-time 0 and no timer pending
completes and keeps all three. -/
theorem step_quiet_untimed (k : Sdk) (c : ValveController) (a : ValveAction)
    (hq : a.quiet = true) (hon : c._current_state = true) (hz : c._on_time_value = 0)
    (hp : c.timerPending = false) :
    ∃ c1, c.step k a = .ok c1 ∧ c1._current_state = true ∧ c1._on_time_value = 0
      ∧ c1.timerPending = false := by
  cases a with
  | setValve s env =>
    simp only [ValveAction.quiet] at hq
    subst hq
    refine ⟨c, ?_, hon, hz, hp⟩
    simp only [ValveController.step, setValve_same k c true env hon.symm, Except.map]
  | restoreValve env =>
    refine ⟨c, ?_, hon, hz, hp⟩
    simp only [ValveController.step, ValveController.restoreValve,
      ValveChanged_on_untimed k c env hon hz, Except.map]
  | onValveChanged cb =>
    exact ⟨c.onValveChanged cb, rfl, hon, hz, hp⟩
  | zbAttributeSet m env => simp [ValveAction.quiet] at hq
  | timerExpires env =>
    refine ⟨c, ?_, hon, hz, hp⟩
    simp only [ValveController.step, timerExpires_not_pending k c env hp, Except.map]

theorem run_quiet_untimed (k : Sdk) (actions : List ValveAction) :
    ∀ c : ValveController, (∀ a ∈ actions, a.quiet = true) → c._current_state = true →
      c._on_time_value = 0 → c.timerPending = false →
      ∃ c1, c.run k actions = .ok c1 ∧ c1._current_state = true ∧ c1._on_time_value = 0
        ∧ c1.timerPending = false := by
  induction actions with
  | nil => intro c _ hon hz hp; exact ⟨c, rfl, hon, hz, hp⟩
  | cons a rest ih =>
    intro c hq hon hz hp
    obtain ⟨c1, h1, hon1, hz1, hp1⟩ :=
      step_quiet_untimed k c a (hq a (List.mem_cons_self _ _)) hon hz hp
    obtain ⟨c2, h2, r⟩ := ih c1 (fun x hx => hq x (List.mem_cons_of_mem _ hx)) hon1 hz1 hp1
    exact ⟨c2, by simp only [ValveController.run, h1, h2], r⟩

/-- C13: from an off state with no timer pending and `on_time_value == 0`,
`setValve(true)` returns, switches the valve on and arms no timer; after any
subsequent sequence of steps that contains no off command and no inbound write
(on-commands, `restoreValve`, observer registrations, the timer service
looking for a due timer) every step has completed, `getValveState()` is still
true and still no timer is pending, so no timer firing occurs. -/
theorem C13_on_without_timeout_stays_on (k : Sdk) (c : ValveController) (env : Env)
    (actions : List ValveAction)
    (hoff : c._current_state = false) (hp : c.timerPending = false)
    (hz : c._on_time_value = 0) (hq : ∀ a ∈ actions, a.quiet = true) :
    ∃ o, c.setValve k true env = .ok o
      ∧ o.self.getValveState = true
      ∧ o.self.timerPending = false
      ∧ o.self._turn_off_timer = c._turn_off_timer
      ∧ ∃ c1, o.self.run k actions = .ok c1
          ∧ c1.getValveState = true ∧ c1.timerPending = false := by
  have h1 : c.setValve k true env
      = .ok { ret := decide (env.zcl_status = k.ESP_ZB_ZCL_STATUS_SUCCESS),
              self := { c with _current_state := true },
              events := ({ c with _current_state := true } : ValveController).notifyEvents
                ++ ({ c with _current_state := true } : ValveController).writeEvents k env } := by
    rw [setValve_changed k c true env (by simp [hoff]),
      ValveChanged_on_untimed k { c with _current_state := true } env rfl hz]
  obtain ⟨c1, hc1, hon1, _, hp1⟩ :=
    run_quiet_untimed k actions { c with _current_state := true } hq rfl hz hp
  exact ⟨_, h1, rfl, hp, rfl, c1, hc1, hon1, hp1⟩

/-- C13 at a concrete input: the valve constructed off, its on-time written to
0, switched on at tick 10 and then driven by on-commands, `restoreValve` and
timer-service polls far beyond the default 360 s. -/
theorem C13_on_without_timeout_stays_on_witness :
    ∃ o, ({ _endpoint := 10, _on_valve_changed := some 7, _current_state := false,
            _on_time_value := 0, _turn_off_timer := none } : ValveController).setValve
          esp32 true (Env.granting 10 0) = .ok o
      ∧ o.self.timerPending = false
      ∧ ∃ c1, o.self.run esp32
            [ValveAction.timerExpires (Env.granting 400000 0),
             ValveAction.setValve true (Env.granting 500000 0),
             ValveAction.restoreValve (Env.granting 600000 0),
             ValveAction.timerExpires (Env.granting 900000 0)] = .ok c1
          ∧ c1.getValveState = true ∧ c1.timerPending = false := by
  obtain ⟨o, h1, _, h3, _, c1, h5, h6, h7⟩ :=
    C13_on_without_timeout_stays_on esp32
      { _endpoint := 10, _on_valve_changed := some 7, _current_state := false,
        _on_time_value := 0, _turn_off_timer := none }
      (Env.granting 10 0)
      [ValveAction.timerExpires (Env.granting 400000 0),
       ValveAction.setValve true (Env.granting 500000 0),
       ValveAction.restoreValve (Env.granting 600000 0),
       ValveAction.timerExpires (Env.granting 900000 0)]
      rfl rfl rfl (by intro a ha; simp at ha; rcases ha with h | h | h | h <;> subst h <;> rfl)
  exact ⟨o, h1, h3, c1, h5, h6, h7⟩

/-- C14, the code at the failing input: in the state reached from construction
by `setValve(true)` at tick 0 and an inbound write of on-time 0 at tick 300000
(on, on-time 0, timer pending for tick 360000), `restoreValve()` at tick 310000
returns with the current state and the on-time unchanged, without a network
write and with one observer call with true, but the timer is neither re-armed
nor cancelled: it is still pending with deadline 360000. -/
theorem C14_restoreValve_leaves_timer_pending :
    (ValveController.construct 10 false (some 7)).run esp32
        [ValveAction.setValve true (Env.granting 0 0),
         ValveAction.zbAttributeSet (esp32.onTimeMessage 0) (Env.granting 300000 0)]
      = .ok { _endpoint := 10, _on_valve_changed := some 7, _current_state := true,
              _on_time_value := 0,
              _turn_off_timer := some { period := 360000, expiry := some 360000 } }
    ∧ (ValveController.restoreValve esp32
          { _endpoint := 10, _on_valve_changed := some 7, _current_state := true,
            _on_time_value := 0,
            _turn_off_timer := some { period := 360000, expiry := some 360000 } }
          (Env.granting 310000 0)).map
        (fun o => (o.self.getValveState, o.self.getOnTime, netWrites o.events,
                   observerCalls o.events, o.self.timerPending, o.self.deadline))
      = .ok (true, 0, [], [(7, true)], true, some 360000) :=
  ⟨rfl, rfl⟩

/-! ## Construction -/

/-- C15, the code at the failing input: the constructor sets the on-time to
3600 and the timer handle to NULL, but it leaves `_current_state` and
`_on_valve_changed` as the storage held them; for an object built in storage
that held a non-zero byte and a non-null word, `getValveState()` is true and an
observer pointer is present right after construction. -/
theorem C15_constructor_leaves_members_uninitialised :
    (ValveController.construct 10 true (some 7)).getValveState = true
    ∧ (ValveController.construct 10 true (some 7))._on_valve_changed = some 7
    ∧ (ValveController.construct 10 true (some 7)).getOnTime = 3600
    ∧ (ValveController.construct 10 true (some 7))._turn_off_timer = none
    ∧ (ValveController.construct 10 true (some 7)).timerPending = false
    ∧ (∀ (endpoint : Nat) (s0 : Bool) (cb0 : Option Nat),
        (ValveController.construct endpoint s0 cb0).getValveState = s0
        ∧ (ValveController.construct endpoint s0 cb0)._on_valve_changed = cb0
        ∧ (ValveController.construct endpoint s0 cb0).getOnTime = DEFAULT_ON_TIME_VALUE
        ∧ (ValveController.construct endpoint s0 cb0)._turn_off_timer = none) :=
  ⟨rfl, rfl, rfl, rfl, rfl, fun _ _ _ => ⟨rfl, rfl, rfl, rfl⟩⟩

/-! ## Idempotence and independence -/

theorem TurnOffCallback_off (k : Sdk) (c : ValveController) (env : Env)
    (hoff : c._current_state = false) :
    c.TurnOffCallback k env = .ok { ret := (), self := c, events := c.writeEvents k env } := by
  simp only [ValveController.TurnOffCallback, setValve_same k c false env hoff.symm]

/-- C16: idempotent off. When `current_state` is already false, `setValve(false)`
and equally the timer-fired callback return with the object unchanged
(`current_state`, `on_time_value`, timer) and without calling the observer.
For every state and value `s`, a `setValve(s)` that follows a completed
`setValve(s)` returns, leaves the object as the first call left it and adds no
observer call. -/
theorem C16_idempotent_off (k : Sdk) (c : ValveController) (env : Env)
    (hoff : c._current_state = false) :
    (∃ o, c.setValve k false env = .ok o ∧ o.self = c ∧ observerCalls o.events = [])
    ∧ (∃ o, c.TurnOffCallback k env = .ok o ∧ o.self = c ∧ observerCalls o.events = [])
    ∧ (∀ (c0 : ValveController) (s : Bool) (env1 env2 : Env) (o1 : Outcome Bool),
        c0.setValve k s env1 = .ok o1 →
        ∃ o2, o1.self.setValve k s env2 = .ok o2
          ∧ o2.self = o1.self
          ∧ observerCalls o2.events = []
          ∧ observerCalls (o1.events ++ o2.events) = observerCalls o1.events) := by
  refine ⟨?_, ?_, ?_⟩
  · exact ⟨_, setValve_same k c false env hoff.symm, rfl, observerCalls_writeEvents k c env⟩
  · exact ⟨_, TurnOffCallback_off k c env hoff, rfl, observerCalls_writeEvents k c env⟩
  · intro c0 s env1 env2 o1 h1
    obtain ⟨a, _⟩ := setValve_spec k c0 s env1 o1 h1
    refine ⟨_, setValve_same k o1.self s env2 a.symm, rfl,
      observerCalls_writeEvents k o1.self env2, ?_⟩
    rw [observerCalls_append, observerCalls_writeEvents]
    simp

/-- C16 at a concrete input: the timer-fired callback arriving when the valve
is already off. -/
theorem C16_idempotent_off_witness :
    ({ valveOnTimed with _current_state := false } : ValveController)._current_state = false
    ∧ (∃ o, ({ valveOnTimed with _current_state := false } : ValveController).TurnOffCallback
          esp32 (Env.granting 5 0) = .ok o
        ∧ o.self = { valveOnTimed with _current_state := false }
        ∧ observerCalls o.events = []) :=
  ⟨rfl, (C16_idempotent_off esp32 { valveOnTimed with _current_state := false }
    (Env.granting 5 0) rfl).2.1⟩

theorem zbAttributeSet_frame (k : Sdk) (c : ValveController)
    (m : esp_zb_zcl_set_attr_value_message_t) (env : Env) (o : Outcome Unit)
    (h : c.zbAttributeSet k m env = .ok o) :
    (¬ k.isOnOffWrite m → o.self._current_state = c._current_state)
    ∧ (¬ k.isOnTimeWrite m → o.self._on_time_value = c._on_time_value)
    ∧ (k.isOnTimeWrite m → o.self._on_time_value = m.as_u16) := by
  unfold ValveController.zbAttributeSet at h
  unfold Sdk.isOnOffWrite Sdk.isOnTimeWrite
  by_cases h0 : m.info_cluster = k.ESP_ZB_ZCL_CLUSTER_ID_ON_OFF
  · by_cases h1 : m.attribute_id = k.ESP_ZB_ZCL_ATTR_ON_OFF_ON_OFF_ID
        ∧ m.attribute_data_type = k.ESP_ZB_ZCL_ATTR_TYPE_BOOL
    · simp only [if_pos h0, if_pos h1, if_true] at h
      cases h2 : ValveController.ValveChanged k { c with _current_state := m.as_bool } env with
      | error f => simp [h2] at h
      | ok o1 =>
        simp only [h2] at h
        cases h
        obtain ⟨_, _, _, b, _⟩ := ValveChanged_frame k _ env o1 h2
        exact ⟨fun hn => absurd ⟨h0, h1.1, h1.2⟩ hn, fun _ => b, fun hn => absurd h1 hn.2.1⟩
    · by_cases h3 : m.attribute_id = k.ESP_ZB_ZCL_ATTR_ON_OFF_ON_TIME
          ∧ m.attribute_data_type = k.ESP_ZB_ZCL_ATTR_TYPE_U16
      · simp only [if_pos h0, if_neg h1, if_pos h3, if_true] at h
        cases h2 : ValveController.ValveChanged k { c with _on_time_value := m.as_u16 } env with
        | error f => simp [h2] at h
        | ok o1 =>
          simp only [h2] at h
          cases h
          obtain ⟨_, _, a, b, _⟩ := ValveChanged_frame k _ env o1 h2
          exact ⟨fun _ => a, fun hn => absurd ⟨h0, h1, h3.1, h3.2⟩ hn, fun _ => b⟩
      · simp only [if_pos h0, if_neg h1, if_neg h3] at h
        simp at h
        subst h
        exact ⟨fun _ => rfl, fun _ => rfl, fun hn => absurd ⟨hn.2.2.1, hn.2.2.2⟩ h3⟩
  · simp only [if_neg h0] at h
    simp at h
    subst h
    exact ⟨fun _ => rfl, fun _ => rfl, fun hn => absurd hn.1 h0⟩

theorem TurnOffCallback_frame (k : Sdk) (c : ValveController) (env : Env) (o : Outcome Unit)
    (h : c.TurnOffCallback k env = .ok o) : o.self._on_time_value = c._on_time_value := by
  unfold ValveController.TurnOffCallback at h
  cases h1 : c.setValve k false env with
  | error f => simp [h1] at h
  | ok o1 =>
    simp only [h1] at h
    cases h
    exact (setValve_spec k c false env o1 h1).2.2.2.1

theorem timerExpires_frame (k : Sdk) (c : ValveController) (env : Env) (o : Outcome Unit)
    (h : c.timerExpires k env = .ok o) : o.self._on_time_value = c._on_time_value := by
  unfold ValveController.timerExpires at h
  cases ht : c._turn_off_timer with
  | none =>
    simp [ht] at h
    subst h
    rfl
  | some t =>
    cases he : t.expiry with
    | none =>
      simp [ht, he] at h
      subst h
      rfl
    | some e =>
      by_cases hdue : e ≤ env.now
      · simp only [ht, he, hdue, if_true] at h
        exact TurnOffCallback_frame k { c with _turn_off_timer := some (xTimerStop t) } env o h
      · simp [ht, he, hdue] at h
        subst h
        rfl

/-- C17: `current_state` and `on_time_value` are independent. An inbound
message that is not an accepted on/off write, in particular an on-time write,
leaves `current_state` as it was; `setValve`, `restoreValve`, an inbound
message that is not an accepted on-time write (in particular an on/off write),
the timer-fired callback and a timer expiry leave `on_time_value` as it was. A
`setValve(true)` that switches the valve on arms the timer from the
`on_time_value` the object holds at that call: with a non-zero value and
period the timer is due `on_time_value * 100 / tick` ticks from now; with the
value 0 no timer is touched. That value is the one written by the most recent
inbound on-time write. -/
theorem C17_state_and_on_time_independent (k : Sdk) (c : ValveController) (env : Env) :
    (∀ m o, c.zbAttributeSet k m env = .ok o →
        (¬ k.isOnOffWrite m → o.self.getValveState = c.getValveState)
        ∧ (k.isOnTimeWrite m → o.self.getValveState = c.getValveState)
        ∧ (¬ k.isOnTimeWrite m → o.self.getOnTime = c.getOnTime)
        ∧ (k.isOnOffWrite m → o.self.getOnTime = c.getOnTime))
    ∧ (∀ s o, c.setValve k s env = .ok o → o.self.getOnTime = c.getOnTime)
    ∧ (∀ o, c.restoreValve k env = .ok o → o.self.getOnTime = c.getOnTime)
    ∧ (∀ o, c.TurnOffCallback k env = .ok o → o.self.getOnTime = c.getOnTime)
    ∧ (∀ o, c.timerExpires k env = .ok o → o.self.getOnTime = c.getOnTime)
    ∧ (∀ o, c._current_state = false → c.setValve k true env = .ok o →
        (c._on_time_value ≠ 0 → c.turnOffPeriod k ≠ 0 →
          o.self._turn_off_timer = some (c.armedTimer k env))
        ∧ (c._on_time_value = 0 → o.self._turn_off_timer = c._turn_off_timer))
    ∧ (∀ (n : Nat) (env2 : Env) (o1 : Outcome Unit) (o2 : Outcome Bool),
        k.attrsDistinct → n ≤ 65535 → n ≠ 0 →
        0 < k.portTICK_PERIOD_MS → k.portTICK_PERIOD_MS ≤ 100 →
        c._current_state = false →
        c.zbAttributeSet k (k.onTimeMessage n) env = .ok o1 →
        o1.self.setValve k true env2 = .ok o2 →
        o2.self._turn_off_timer
          = some { period := n * 100 / k.portTICK_PERIOD_MS,
                   expiry := some (env2.now + n * 100 / k.portTICK_PERIOD_MS) }) := by
  have harm : ∀ (c0 : ValveController) (e : Env) (o : Outcome Bool),
      c0._current_state = false → c0.setValve k true e = .ok o →
      (c0._on_time_value ≠ 0 → c0.turnOffPeriod k ≠ 0 →
        o.self._turn_off_timer = some (c0.armedTimer k e))
      ∧ (c0._on_time_value = 0 → o.self._turn_off_timer = c0._turn_off_timer) := by
    intro c0 e o hoff ho
    rw [setValve_changed k c0 true e (by simp [hoff])] at ho
    cases h1 : ValveController.ValveChanged k { c0 with _current_state := true } e with
    | error f => simp [h1] at ho
    | ok o1 =>
      simp only [h1, Except.ok.injEq] at ho
      subst ho
      refine ⟨?_, ?_⟩
      · intro hnz hp
        rw [ValveChanged_on_armed k { c0 with _current_state := true } e o1 rfl hnz hp h1]
        rfl
      · intro hz
        rw [ValveChanged_on_untimed k { c0 with _current_state := true } e rfl hz] at h1
        cases h1
        rfl
  refine ⟨?_, ?_, ?_, ?_, ?_, ?_, ?_⟩
  · intro m o ho
    obtain ⟨a, b, _⟩ := zbAttributeSet_frame k c m env o ho
    exact ⟨a, fun hm => a (fun hn => hm.2.1 ⟨hn.2.1, hn.2.2⟩), b,
      fun hm => b (fun hn => hn.2.1 ⟨hm.2.1, hm.2.2⟩)⟩
  · intro s o ho
    exact (setValve_spec k c s env o ho).2.2.2.1
  · intro o ho
    exact (ValveChanged_frame k c env o ho).2.2.2.1
  · exact fun o ho => TurnOffCallback_frame k c env o ho
  · exact fun o ho => timerExpires_frame k c env o ho
  · exact fun o hoff ho => harm c env o hoff ho
  · intro n env2 o1 o2 hk hn hnz ht0 ht1 hoff h1 h2
    have hmod : n % 65536 = n := Nat.mod_eq_of_lt (by omega)
    rw [zbAttributeSet_onTime k c n env hk, hmod,
      ValveChanged_off k { c with _on_time_value := n } env hoff] at h1
    simp only [Except.ok.injEq] at h1
    subst h1
    have hgen : ∀ c1 : ValveController, c1._current_state = false → c1._on_time_value = n →
        c1.setValve k true env2 = .ok o2 →
        o2.self._turn_off_timer
          = some { period := n * 100 / k.portTICK_PERIOD_MS,
                   expiry := some (env2.now + n * 100 / k.portTICK_PERIOD_MS) } := by
      intro c1 hoff1 hn1 hs
      have hle : c1._on_time_value ≤ 65535 := by rw [hn1]; exact hn
      have hnz1 : c1._on_time_value ≠ 0 := by rw [hn1]; exact hnz
      have hpe := turnOffPeriod_eq k c1 hle
      have hpp := turnOffPeriod_pos k c1 hle hnz1 ht0 ht1
      rw [(harm c1 env2 o2 hoff1 hs).1 hnz1 hpp]
      simp only [ValveController.armedTimer, hpe, hn1]
    exact hgen { c with _on_time_value := n,
                        _turn_off_timer := c._turn_off_timer.map xTimerStop } hoff rfl h2

/-- C17 at a concrete input: the valve constructed off receives an on-time
write of 50 and is then switched on at tick 1000: the timer is due 5000 ticks
later, not 360000. -/
theorem C17_state_and_on_time_independent_witness :
    ∃ o1 o2,
      (ValveController.construct 10 false (some 7)).zbAttributeSet esp32
          (esp32.onTimeMessage 50) (Env.granting 0 0) = .ok o1
      ∧ o1.self.getValveState = false
      ∧ o1.self.setValve esp32 true (Env.granting 1000 0) = .ok o2
      ∧ o2.self.getOnTime = 50
      ∧ o2.self._turn_off_timer = some { period := 5000, expiry := some 6000 } := by
  have hk : esp32.attrsDistinct := by
    simp [Sdk.attrsDistinct, esp32]
  have h := C17_state_and_on_time_independent esp32
    (ValveController.construct 10 false (some 7)) (Env.granting 0 0)
  have h1 : (ValveController.construct 10 false (some 7)).zbAttributeSet esp32
      (esp32.onTimeMessage 50) (Env.granting 0 0)
      = .ok { ret := (),
              self := { _endpoint := 10, _on_valve_changed := some 7, _current_state := false,
                        _on_time_value := 50, _turn_off_timer := none },
              events := [Event.on_valve_changed 7 false] } := rfl
  obtain ⟨o2, h2⟩ := setValve_ok esp32
    { _endpoint := 10, _on_valve_changed := some 7, _current_state := false,
      _on_time_value := 50, _turn_off_timer := none } true (Env.granting 1000 0)
    (by simp [Env.timerServiceOk, Env.granting])
  refine ⟨_, o2, h1, rfl, h2, ?_, ?_⟩
  · exact (setValve_spec esp32 _ true (Env.granting 1000 0) o2 h2).2.2.2.1
  · exact h.2.2.2.2.2.2 50 (Env.granting 1000 0) _ o2 hk (by norm_num) (by norm_num)
      (by simp [esp32]) (by simp [esp32]) rfl h1 h2

/-- C18: duration conversion. For every on-time value N in 1..65535 with the
valve on, the reaction hands `StartTurnOffTimer` the period
`(N * 100) / portTICK_PERIOD_MS` ticks; the product `N * 100` is at most
6,553,500 and is not reduced by any wrap-around. For every tick period that
divides 100 ms this period is non-zero and is exactly N tenths of a second
(period times tick period is `N * 100` ms), so the reaction takes the arming
branch: when it returns the timer is pending, due that many ticks from now,
and with a timer service that grants its requests it returns. -/
theorem C18_duration_conversion (k : Sdk) (c : ValveController) (env : Env)
    (hon : c._current_state = true) (h1 : 1 ≤ c._on_time_value)
    (h2 : c._on_time_value ≤ 65535) :
    c._on_time_value * 100 ≤ 6553500
    ∧ c.turnOffPeriod k = (c._on_time_value * 100) / k.portTICK_PERIOD_MS
    ∧ c.ValveChanged k env
        = (match c.StartTurnOffTimer ((c._on_time_value * 100) / k.portTICK_PERIOD_MS) env with
           | .error f => .error f
           | .ok c1 => .ok { ret := (), self := c1, events := c1.notifyEvents })
    ∧ (k.portTICK_PERIOD_MS ∣ 100 →
        (c._on_time_value * 100) / k.portTICK_PERIOD_MS ≠ 0
        ∧ (c._on_time_value * 100) / k.portTICK_PERIOD_MS * k.portTICK_PERIOD_MS
            = c._on_time_value * 100
        ∧ (∀ o, c.ValveChanged k env = .ok o →
            o.self._turn_off_timer
              = some { period := (c._on_time_value * 100) / k.portTICK_PERIOD_MS,
                       expiry := some (env.now
                                        + (c._on_time_value * 100) / k.portTICK_PERIOD_MS) }
            ∧ o.self.timerPending = true)
        ∧ (env.timerServiceOk → ∃ o, c.ValveChanged k env = .ok o)) := by
  have hnz : c._on_time_value ≠ 0 := by omega
  have hpe := turnOffPeriod_eq k c h2
  refine ⟨by omega, hpe, ?_, ?_⟩
  · rw [ValveChanged_on_timed k c env hon hnz, hpe]
  · intro hdvd
    have ht0 : 0 < k.portTICK_PERIOD_MS :=
      Nat.pos_of_dvd_of_pos hdvd (by norm_num)
    have ht1 : k.portTICK_PERIOD_MS ≤ 100 := Nat.le_of_dvd (by norm_num) hdvd
    have hpp := turnOffPeriod_pos k c h2 hnz ht0 ht1
    refine ⟨by rw [← hpe]; exact hpp, ?_, ?_, ValveChanged_ok k c env⟩
    · exact Nat.div_mul_cancel (Dvd.dvd.mul_left hdvd _)
    · intro o ho
      rw [ValveChanged_on_armed k c env o hon hnz hpp ho]
      refine ⟨?_, rfl⟩
      simp only [ValveController.armedTimer, hpe]

/-- C18 at a concrete input: N = 3600 with a 1 ms tick gives a period of
360000 ticks, which is not the 32320 that a 16-bit product would give. -/
theorem C18_duration_conversion_witness :
    valveOnTimed._current_state = true
    ∧ 1 ≤ valveOnTimed._on_time_value ∧ valveOnTimed._on_time_value ≤ 65535
    ∧ valveOnTimed.turnOffPeriod esp32 = 360000
    ∧ (3600 * 100) % 2 ^ 16 = 32320
    ∧ ∃ o, valveOnTimed.ValveChanged esp32 (Env.granting 300000 0) = .ok o
        ∧ o.self._turn_off_timer = some { period := 360000, expiry := some 660000 } := by
  have h := C18_duration_conversion esp32 valveOnTimed (Env.granting 300000 0) rfl
    (by decide) (by decide)
  have hd : esp32.portTICK_PERIOD_MS ∣ 100 := ⟨100, rfl⟩
  obtain ⟨_, _, h3, h4⟩ := h.2.2.2 hd
  obtain ⟨o, ho⟩ := h4 (by simp [Env.timerServiceOk, Env.granting])
  exact ⟨rfl, by decide, by decide, h.2.1, by norm_num, o, ho, (h3 o ho).1⟩

/-- C19: timer failures are hard failures. When `StartTurnOffTimer` is called
with a non-zero period and `xTimerCreate` returns no handle, the assertion of
line 63 is violated; when `xTimerChangePeriod` rejects the change, the
assertion of line 68 is violated; so a call that returns has had its requests
granted and leaves the timer pending. With a non-zero on-time and period such
a failure of the timer service fails the operation that runs the reaction for
a valve that is on (`restoreValve`, `setValve(true)` from off, an inbound
on/off write of true): none of them completes. Conversely, when the reaction returns with the valve on, a
non-zero on-time and a non-zero period in ticks, a timer is pending, and so it
is after each of those operations; the period in ticks is non-zero for every
16-bit on-time other than 0 when the tick period is between 1 and 100 ms. -/
theorem C19_timer_failures_are_hard (k : Sdk) (c : ValveController) (p : Nat) (env : Env)
    (hp : p ≠ 0) :
    (c._turn_off_timer = none → env.xTimerCreate_ok = false →
        c.StartTurnOffTimer p env = .error Fault.timer_not_created)
    ∧ (env.xTimerChangePeriod_ok = false →
        (c._turn_off_timer ≠ none ∨ env.xTimerCreate_ok = true) →
        c.StartTurnOffTimer p env = .error Fault.period_change_rejected)
    ∧ (∀ c1, c.StartTurnOffTimer p env = .ok c1 →
        env.xTimerChangePeriod_ok = true
        ∧ (c._turn_off_timer = none → env.xTimerCreate_ok = true)
        ∧ c1.timerPending = true)
    ∧ (c._on_time_value ≠ 0 → c.turnOffPeriod k ≠ 0 →
        ((c._turn_off_timer = none ∧ env.xTimerCreate_ok = false)
          ∨ env.xTimerChangePeriod_ok = false) →
        (c._current_state = true →
          ∃ f, c.ValveChanged k env = .error f ∧ c.restoreValve k env = .error f)
        ∧ (c._current_state = false → ∃ f, c.setValve k true env = .error f)
        ∧ (∃ f, c.zbAttributeSet k (k.onOffMessage true) env = .error f))
    ∧ (∀ o, c._current_state = true → c._on_time_value ≠ 0 → c.turnOffPeriod k ≠ 0 →
        c.ValveChanged k env = .ok o →
        o.self.getValveState = true ∧ o.self.timerPending = true)
    ∧ (∀ o, c._current_state = true → c._on_time_value ≠ 0 → c.turnOffPeriod k ≠ 0 →
        c.restoreValve k env = .ok o →
        o.self.getValveState = true ∧ o.self.timerPending = true)
    ∧ (∀ o, c._current_state = false → c._on_time_value ≠ 0 → c.turnOffPeriod k ≠ 0 →
        c.setValve k true env = .ok o →
        o.self.getValveState = true ∧ o.self.timerPending = true)
    ∧ (∀ o, c._on_time_value ≠ 0 → c.turnOffPeriod k ≠ 0 →
        c.zbAttributeSet k (k.onOffMessage true) env = .ok o →
        o.self.getValveState = true ∧ o.self.timerPending = true)
    ∧ (c._on_time_value ≤ 65535 → c._on_time_value ≠ 0 →
        0 < k.portTICK_PERIOD_MS → k.portTICK_PERIOD_MS ≤ 100 → c.turnOffPeriod k ≠ 0) := by
  have hconv : ∀ (c0 : ValveController) (o : Outcome Unit), c0._current_state = true →
      c0._on_time_value ≠ 0 → c0.turnOffPeriod k ≠ 0 → c0.ValveChanged k env = .ok o →
      o.self.getValveState = true ∧ o.self.timerPending = true := by
    intro c0 o hon hnz hpp ho
    rw [ValveChanged_on_armed k c0 env o hon hnz hpp ho]
    exact ⟨hon, rfl⟩
  have hfail : ∀ (c0 : ValveController) (f : Fault), c0._current_state = true →
      c0._on_time_value ≠ 0 → c0.StartTurnOffTimer (c0.turnOffPeriod k) env = .error f →
      c0.ValveChanged k env = .error f := by
    intro c0 f hon hnz hf
    rw [ValveChanged_on_timed k c0 env hon hnz, hf]
  refine ⟨?_, ?_, ?_, ?_, ?_, ?_, ?_, ?_, turnOffPeriod_pos k c⟩
  · intro hnone hcreate
    simp [ValveController.StartTurnOffTimer, hp, hnone, xTimerCreate, hcreate]
  · intro hchange hhandle
    unfold ValveController.StartTurnOffTimer
    cases ht : c._turn_off_timer with
    | none =>
      rcases hhandle with h | h
      · exact absurd ht h
      · simp [hp, xTimerCreate, h, xTimerChangePeriod, hchange]
    | some t => simp [hp, xTimerChangePeriod, hchange]
  · intro c1 h
    have hs := StartTurnOffTimer_pos_inv c c1 p env hp h
    refine ⟨?_, ?_, ?_⟩
    · cases hq : env.xTimerChangePeriod_ok with
      | true => rfl
      | false =>
        unfold ValveController.StartTurnOffTimer at h
        cases ht : c._turn_off_timer <;> cases hc : env.xTimerCreate_ok <;>
          simp [hp, ht, hc, hq, xTimerCreate, xTimerChangePeriod] at h
    · intro hnone
      cases hc : env.xTimerCreate_ok with
      | true => rfl
      | false =>
        simp [ValveController.StartTurnOffTimer, hp, hnone, xTimerCreate, hc] at h
    · rw [hs]
      rfl
  · intro hnz hpp hbad
    have hstart : ∀ c0 : ValveController, c0._turn_off_timer = c._turn_off_timer →
        ∃ f, c0.StartTurnOffTimer (c.turnOffPeriod k) env = .error f := by
      intro c0 h0
      unfold ValveController.StartTurnOffTimer
      rw [h0]
      cases ht : c._turn_off_timer <;> cases hc : env.xTimerCreate_ok <;>
        cases hq : env.xTimerChangePeriod_ok <;>
        simp_all [xTimerCreate, xTimerChangePeriod]
    have hon_fail : ∃ f, ValveController.ValveChanged k { c with _current_state := true } env
        = .error f := by
      obtain ⟨f, hf⟩ := hstart { c with _current_state := true } rfl
      exact ⟨f, hfail { c with _current_state := true } f rfl hnz hf⟩
    refine ⟨?_, ?_, ?_⟩
    · intro hon
      obtain ⟨f, hf⟩ := hstart c rfl
      exact ⟨f, hfail c f hon hnz hf, hfail c f hon hnz hf⟩
    · intro hoff
      obtain ⟨f, hf⟩ := hon_fail
      refine ⟨f, ?_⟩
      rw [setValve_changed k c true env (by simp [hoff])]
      simp only [hf]
    · obtain ⟨f, hf⟩ := hon_fail
      refine ⟨f, ?_⟩
      rw [zbAttributeSet_onOff]
      simp only [hf]
  · exact fun o hon hnz hpp ho => hconv c o hon hnz hpp ho
  · exact fun o hon hnz hpp ho => hconv c o hon hnz hpp ho
  · intro o hoff hnz hpp ho
    rw [setValve_changed k c true env (by simp [hoff])] at ho
    cases h1 : ValveController.ValveChanged k { c with _current_state := true } env with
    | error f => simp [h1] at ho
    | ok o1 =>
      simp only [h1, Except.ok.injEq] at ho
      subst ho
      exact hconv { c with _current_state := true } o1 rfl hnz hpp h1
  · intro o hnz hpp ho
    rw [zbAttributeSet_onOff] at ho
    cases h1 : ValveController.ValveChanged k { c with _current_state := true } env with
    | error f => simp [h1] at ho
    | ok o1 =>
      simp only [h1, Except.ok.injEq] at ho
      subst ho
      exact hconv { c with _current_state := true } o1 rfl hnz hpp h1

/-- C19 at a concrete input: switching the freshly constructed valve on while
`xTimerCreate` returns no handle violates the assertion of line 63, and while
`xTimerChangePeriod` rejects the change violates the assertion of line 68. -/
theorem C19_timer_failures_are_hard_witness :
    (360000 : Nat) ≠ 0
    ∧ (ValveController.construct 10 true (some 7)).StartTurnOffTimer 360000
        { now := 0, xTimerCreate_ok := false, xTimerChangePeriod_ok := true, zcl_status := 0 }
        = .error Fault.timer_not_created
    ∧ (ValveController.construct 10 false (some 7)).setValve esp32 true
        { now := 0, xTimerCreate_ok := false, xTimerChangePeriod_ok := true, zcl_status := 0 }
        = .error Fault.timer_not_created
    ∧ (ValveController.construct 10 false (some 7)).setValve esp32 true
        { now := 0, xTimerCreate_ok := true, xTimerChangePeriod_ok := false, zcl_status := 0 }
        = .error Fault.period_change_rejected :=
  ⟨by decide,
   (C19_timer_failures_are_hard esp32 (ValveController.construct 10 true (some 7)) 360000
      { now := 0, xTimerCreate_ok := false, xTimerChangePeriod_ok := true, zcl_status := 0 }
      (by decide)).1 rfl rfl,
   rfl, rfl⟩
